/-
Verification of the derived-metrics and join engine of the risk-management
dashboard (geographic hazard module, socioeconomic vulnerability module and
the unified point join module).

The TypeScript sources are shallowly embedded:
- JavaScript numbers are modelled by `JSNum`: either a finite rational, one
  of the two infinities, `NaN`, or `undefined` (which behaves like `NaN`
  once it enters arithmetic and is falsy for the `|| default` guards).
  Finite values are idealised as exact rationals.
- Coordinates (`lat`/`lng`) are modelled as plain rationals: all coordinate
  literals in the datasets are finite decimals and the join only compares
  them after rounding to six decimals.
- The haversine distance (transcendental, floating point) is abstracted as
  a parameter `dist` of the join; every theorem about the join either holds
  for all `dist` or never evaluates it (on the bundled datasets every
  socioeconomic record has an exact coordinate match).
- The `Map`/`Set` objects are modelled by association lists / lists of
  keys with the same insertion-order and overwrite semantics.
-/
import Mathlib

set_option maxRecDepth 10000

/-- Model of a JavaScript number as it flows through the engine:
a finite (exact) rational, an infinity, `NaN`, or `undefined`. -/
inductive JSNum where
  | nan : JSNum
  | undef : JSNum
  | inf : JSNum
  | ninf : JSNum
  | fin : ℚ → JSNum
deriving DecidableEq

namespace JSNum

/-- Source `Number.isFinite`. -/
def isFinite : JSNum → Bool
  | fin _ => true
  | _ => false

/-- Source `Number.isNaN` (no coercion: `undefined` is not `NaN` for this test). -/
def isNaN : JSNum → Bool
  | nan => true
  | _ => false

/-- The finite payload, `0` otherwise (used only to state theorems). -/
def toQ : JSNum → ℚ
  | fin q => q
  | _ => 0

/-- The finite payload as an option (used only to state theorems). -/
def toFinite : JSNum → Option ℚ
  | fin q => some q
  | _ => none

/-- Unary minus. `-undefined` coerces to `NaN`. -/
def neg : JSNum → JSNum
  | fin q => fin (-q)
  | inf => ninf
  | ninf => inf
  | _ => nan

/-- Addition, IEEE style: `∞ + (-∞) = NaN`, `NaN`/`undefined` propagate. -/
def add : JSNum → JSNum → JSNum
  | fin a, fin b => fin (a + b)
  | inf, fin _ => inf
  | fin _, inf => inf
  | inf, inf => inf
  | ninf, fin _ => ninf
  | fin _, ninf => ninf
  | ninf, ninf => ninf
  | _, _ => nan

/-- Subtraction `a - b = a + (-b)` (matches IEEE semantics case by case). -/
def sub (a b : JSNum) : JSNum := add a (neg b)

/-- Multiplication, IEEE style: `±∞ * 0 = NaN`, signs propagate. -/
def mul : JSNum → JSNum → JSNum
  | fin a, fin b => fin (a * b)
  | inf, inf => inf
  | inf, ninf => ninf
  | ninf, inf => ninf
  | ninf, ninf => inf
  | inf, fin b => if b = 0 then nan else if 0 < b then inf else ninf
  | fin a, inf => if a = 0 then nan else if 0 < a then inf else ninf
  | ninf, fin b => if b = 0 then nan else if 0 < b then ninf else inf
  | fin a, ninf => if a = 0 then nan else if 0 < a then ninf else inf
  | _, _ => nan

/-- Division, IEEE style with an unsigned zero (`a / 0` is `±∞` by the sign
of `a`, `0 / 0 = NaN`, `a / ±∞ = 0`, `±∞ / ±∞ = NaN`). -/
def div : JSNum → JSNum → JSNum
  | fin a, fin b =>
      if b = 0 then (if a = 0 then nan else if 0 < a then inf else ninf)
      else fin (a / b)
  | fin _, inf => fin 0
  | fin _, ninf => fin 0
  | inf, fin b => if 0 ≤ b then inf else ninf
  | ninf, fin b => if 0 ≤ b then ninf else inf
  | _, _ => nan

/-- Source `Math.abs`. -/
def jsAbs : JSNum → JSNum
  | fin q => fin |q|
  | inf => inf
  | ninf => inf
  | _ => nan

/-- Strict comparison `a < b`; any comparison involving `NaN` (or
`undefined`, which coerces to `NaN`) is false. -/
def lt : JSNum → JSNum → Bool
  | fin a, fin b => decide (a < b)
  | fin _, inf => true
  | ninf, fin _ => true
  | ninf, inf => true
  | _, _ => false

/-- Comparison `a <= b`; false whenever `NaN` is involved. -/
def le : JSNum → JSNum → Bool
  | fin a, fin b => decide (a ≤ b)
  | fin _, inf => true
  | ninf, fin _ => true
  | ninf, inf => true
  | inf, inf => true
  | ninf, ninf => true
  | _, _ => false

/-- Source `Math.max` of two arguments (`NaN`/`undefined` poison the result). -/
def jsMax : JSNum → JSNum → JSNum
  | fin a, fin b => fin (max a b)
  | inf, fin _ => inf
  | fin _, inf => inf
  | inf, inf => inf
  | inf, ninf => inf
  | ninf, inf => inf
  | ninf, fin b => fin b
  | fin a, ninf => fin a
  | ninf, ninf => ninf
  | _, _ => nan

/-- Source `Math.min` of two arguments (`NaN`/`undefined` poison the result). -/
def jsMin : JSNum → JSNum → JSNum
  | fin a, fin b => fin (min a b)
  | inf, fin b => fin b
  | fin a, inf => fin a
  | inf, inf => inf
  | inf, ninf => ninf
  | ninf, inf => ninf
  | ninf, fin _ => ninf
  | fin _, ninf => ninf
  | ninf, ninf => ninf
  | _, _ => nan

/-- The `x || d` guard: returns `d` exactly when `x` is falsy
(`NaN`, `undefined` or `0`). Infinities are truthy. -/
def orDefault : JSNum → JSNum → JSNum
  | nan, d => d
  | undef, d => d
  | fin q, d => if q = 0 then d else fin q
  | x, _ => x

end JSNum

/-- The three-level category used by every scoring path
(`"alto" | "medio" | "bajo"` in the source). -/
inductive Cat where
  | alto : Cat
  | medio : Cat
  | bajo : Cat
deriving DecidableEq

/-! ## Geographic metrics module (`src/lib/geographic.ts`) -/

namespace Geographic

/-- A raw geographic survey record (`GeographicRecord`). Coordinates are
finite decimals in the dataset and are modelled as exact rationals; the six
erosion/sediment statistics keep the full JS-number semantics. -/
structure GeographicRecord where
  id : String
  lat : ℚ
  lng : ℚ
  zone : String
  department : String
  erosionSum : JSNum
  erosionMean : JSNum
  erosionStd : JSNum
  sedimentSum : JSNum
  sedimentMean : JSNum
  sedimentStd : JSNum
deriving DecidableEq

/-- Source `processDominance` values (`"erosión" | "sedimentación" | "mixto"`). -/
inductive Dominance where
  | erosion : Dominance
  | sedimentacion : Dominance
  | mixto : Dominance
deriving DecidableEq

/-- Derived hazard indicators (`GeographicDerived`). -/
structure GeographicDerived where
  erosionMagnitude : JSNum
  sedimentMagnitude : JSNum
  netBalance : JSNum
  processDominance : Dominance
  variabilityIndex : JSNum
  hazardScore : JSNum
  riskCategory : Cat
deriving DecidableEq

/-- A record together with its derived fields (`GeographicWithDerived`,
built by `Object.assign({}, r, computeDerived(r))`). -/
structure GeographicWithDerived extends GeographicRecord, GeographicDerived
deriving DecidableEq

/-- Source `clamp01` of `geographic.ts`: non-finite values (NaN and infinities)
collapse to `0`, finite values are clamped into `[0,1]`. -/
def clamp01 (x : JSNum) : JSNum :=
  if x.isFinite = false then JSNum.fin 0
  else if JSNum.lt x (JSNum.fin 0) then JSNum.fin 0
  else if JSNum.lt (JSNum.fin 1) x then JSNum.fin 1
  else x

/-- Source `clamp` of `geographic.ts`: non-finite values collapse to `min`,
otherwise `Math.min(max, Math.max(min, x))`. -/
def clamp (x mn mx : JSNum) : JSNum :=
  if x.isFinite = false then mn
  else JSNum.jsMin mx (JSNum.jsMax mn x)

/-- Source `scoreToCategory`: `s ≥ 66 → alto`, `s ≥ 33 → medio`, else `bajo`. -/
def scoreToCategory (s : JSNum) : Cat :=
  if JSNum.le (JSNum.fin 66) s then Cat.alto
  else if JSNum.le (JSNum.fin 33) s then Cat.medio
  else Cat.bajo

/-- Source `erosionMagnitude = Math.abs(r.erosionSum || 0)`. -/
def erosionMagnitude (r : GeographicRecord) : JSNum :=
  JSNum.jsAbs (JSNum.orDefault r.erosionSum (JSNum.fin 0))

/-- Source `sedimentMagnitude = Math.abs(r.sedimentSum || 0)`. -/
def sedimentMagnitude (r : GeographicRecord) : JSNum :=
  JSNum.jsAbs (JSNum.orDefault r.sedimentSum (JSNum.fin 0))

/-- Source `netBalance = (r.sedimentSum || 0) + (r.erosionSum || 0)`. -/
def netBalance (r : GeographicRecord) : JSNum :=
  JSNum.add (JSNum.orDefault r.sedimentSum (JSNum.fin 0))
    (JSNum.orDefault r.erosionSum (JSNum.fin 0))

/-- The three-way dominance classification. -/
def dominance (r : GeographicRecord) : Dominance :=
  if JSNum.lt (JSNum.mul (sedimentMagnitude r) (JSNum.fin (1.1 : ℚ)))
      (erosionMagnitude r) then Dominance.erosion
  else if JSNum.lt (JSNum.mul (erosionMagnitude r) (JSNum.fin (1.1 : ℚ)))
      (sedimentMagnitude r) then Dominance.sedimentacion
  else Dominance.mixto

/-- Sub-score: `clamp01(Math.abs(r.erosionMean || 0) / 0.0035)`. -/
def erosionIntensity (r : GeographicRecord) : JSNum :=
  clamp01 (JSNum.div (JSNum.jsAbs (JSNum.orDefault r.erosionMean (JSNum.fin 0)))
    (JSNum.fin (0.0035 : ℚ)))

/-- Sub-score: `clamp01(Math.abs(r.sedimentMean || 0) / 0.002)`. -/
def sedimentIntensity (r : GeographicRecord) : JSNum :=
  clamp01 (JSNum.div (JSNum.jsAbs (JSNum.orDefault r.sedimentMean (JSNum.fin 0)))
    (JSNum.fin (0.002 : ℚ)))

/-- Sub-score: `clamp01((erosionMagnitude + sedimentMagnitude) / 120)`. -/
def magnitudeScore (r : GeographicRecord) : JSNum :=
  clamp01 (JSNum.div (JSNum.add (erosionMagnitude r) (sedimentMagnitude r))
    (JSNum.fin 120))

/-- Sub-score: `clamp01((|r.erosionStd || 0| + |r.sedimentStd || 0|) / 0.05)`. -/
def variabilityIndex (r : GeographicRecord) : JSNum :=
  clamp01 (JSNum.div
    (JSNum.add (JSNum.jsAbs (JSNum.orDefault r.erosionStd (JSNum.fin 0)))
      (JSNum.jsAbs (JSNum.orDefault r.sedimentStd (JSNum.fin 0))))
    (JSNum.fin (0.05 : ℚ)))

/-- Source `hazardScore = clamp(35*eI + 25*sI + 20*var + 20*mag, 0, 100)`. -/
def hazardScore (r : GeographicRecord) : JSNum :=
  clamp
    (JSNum.add
      (JSNum.add
        (JSNum.add (JSNum.mul (JSNum.fin 35) (erosionIntensity r))
          (JSNum.mul (JSNum.fin 25) (sedimentIntensity r)))
        (JSNum.mul (JSNum.fin 20) (variabilityIndex r)))
      (JSNum.mul (JSNum.fin 20) (magnitudeScore r)))
    (JSNum.fin 0) (JSNum.fin 100)

/-- Source `computeDerived` of `geographic.ts`. -/
def computeDerived (r : GeographicRecord) : GeographicDerived :=
  { erosionMagnitude := erosionMagnitude r
    sedimentMagnitude := sedimentMagnitude r
    netBalance := netBalance r
    processDominance := dominance r
    variabilityIndex := variabilityIndex r
    hazardScore := hazardScore r
    riskCategory := scoreToCategory (hazardScore r) }

/-- Source `withDerived` of `geographic.ts`. -/
def withDerived (r : GeographicRecord) : GeographicWithDerived :=
  { toGeographicRecord := r, toGeographicDerived := computeDerived r }

/-- Input of `aggregateByZone`/`toGeoJSON`: a raw record or an enriched one
(the source accepts the union type and probes for `"hazardScore" in r0`). -/
def GeoInput : Type := GeographicRecord ⊕ GeographicWithDerived

instance : DecidableEq GeoInput := by
  unfold GeoInput
  infer_instance

/-- The normalisation the source performs on each input row. -/
def normalize (r0 : GeoInput) : GeographicWithDerived :=
  match r0 with
  | Sum.inl raw => withDerived raw
  | Sum.inr enriched => enriched

/-- Zone aggregate row (`ZoneAggregate` of `geographic.ts`). -/
structure ZoneAggregate where
  zone : String
  department : String
  sites : ℕ
  totalErosionSum : JSNum
  totalSedimentSum : JSNum
  netBalanceTotal : JSNum
  avgErosionMean : JSNum
  avgSedimentMean : JSNum
  avgVariability : JSNum
  avgHazardScore : JSNum
  riskCategory : Cat
deriving DecidableEq

/-- The per-zone accumulator (the record stored in the `Map`). -/
structure GeoAcc where
  zone : String
  department : String
  n : ℕ
  totalErosionSum : JSNum
  totalSedimentSum : JSNum
  sumErosionMean : JSNum
  sumSedimentMean : JSNum
  sumVariability : JSNum
  sumHazard : JSNum
deriving DecidableEq

/-- The fresh accumulator (`acc.get(k) || { ..zeros.. }`). -/
def emptyAcc (z d : String) : GeoAcc :=
  { zone := z, department := d, n := 0
    totalErosionSum := JSNum.fin 0, totalSedimentSum := JSNum.fin 0
    sumErosionMean := JSNum.fin 0, sumSedimentMean := JSNum.fin 0
    sumVariability := JSNum.fin 0, sumHazard := JSNum.fin 0 }

/-- Folding one row into an accumulator (`m.n += 1; m.totalErosionSum += …`). -/
def addRow (m : GeoAcc) (r : GeographicWithDerived) : GeoAcc :=
  { m with
    n := m.n + 1
    totalErosionSum := JSNum.add m.totalErosionSum r.erosionSum
    totalSedimentSum := JSNum.add m.totalSedimentSum r.sedimentSum
    sumErosionMean := JSNum.add m.sumErosionMean r.erosionMean
    sumSedimentMean := JSNum.add m.sumSedimentMean r.sedimentMean
    sumVariability := JSNum.add m.sumVariability r.variabilityIndex
    sumHazard := JSNum.add m.sumHazard r.hazardScore }

/-- Source `Map.set` seen through the fold: update the (unique) entry whose key
matches the row's zone, or append a fresh entry at the end — exactly the
insertion-order/overwrite behaviour of a JS `Map`. -/
def bump (r : GeographicWithDerived) : List (String × GeoAcc) → List (String × GeoAcc)
  | [] => [(r.zone, addRow (emptyAcc r.zone r.department) r)]
  | (k, m) :: rest =>
      if k = r.zone then (k, addRow m r) :: rest
      else (k, m) :: bump r rest

/-- Finishing step: turn an accumulator into the returned aggregate row. -/
def finalizeAcc (m : GeoAcc) : ZoneAggregate :=
  { zone := m.zone
    department := m.department
    sites := m.n
    totalErosionSum := m.totalErosionSum
    totalSedimentSum := m.totalSedimentSum
    netBalanceTotal := JSNum.add m.totalErosionSum m.totalSedimentSum
    avgErosionMean := JSNum.div m.sumErosionMean (JSNum.fin m.n)
    avgSedimentMean := JSNum.div m.sumSedimentMean (JSNum.fin m.n)
    avgVariability := JSNum.div m.sumVariability (JSNum.fin m.n)
    avgHazardScore := JSNum.div m.sumHazard (JSNum.fin m.n)
    riskCategory := scoreToCategory (JSNum.div m.sumHazard (JSNum.fin m.n)) }

/-- Source `aggregateByZone` of `geographic.ts`. -/
def aggregateByZone (rows : List GeoInput) : List ZoneAggregate :=
  ((rows.map normalize).foldl (fun acc r => bump r acc) []).map
    (fun e => finalizeAcc e.2)

end Geographic

/-! ## Socioeconomic metrics module (`src/lib/socioeconomic.ts`) -/

namespace Socioeconomic

/-- A raw household survey record (`SocioeconomicRecord`). -/
structure SocioeconomicRecord where
  id : String
  lat : ℚ
  lng : ℚ
  zone : String
  department : String
  genderCode : JSNum
  ageCode : JSNum
  householdSize : JSNum
  elders65 : JSNum
  childrenUnder10 : JSNum
  healthInsuranceCount : JSNum
  chronicConditionCount : JSNum
  higherEducationCount : JSNum
  illiterateCount : JSNum
  wallMaterialCode : JSNum
  servicesDummy1 : JSNum
  servicesDummy2 : JSNum
  monthlyIncome : JSNum
  formalJobs : JSNum
  informalJobs : JSNum
  estimatedLossHousing : JSNum
deriving DecidableEq

/-- Derived vulnerability indicators (`DerivedIndicators`). -/
structure DerivedIndicators where
  dependents : JSNum
  employmentTotal : JSNum
  hasAnyInsurance : Bool
  incomePerCapita : JSNum
  vulnerabilityScore : JSNum
  riskCategory : Cat
deriving DecidableEq

/-- Record plus derived indicators (`SocioeconomicRecord & DerivedIndicators`). -/
structure SocioWithDerived extends SocioeconomicRecord, DerivedIndicators
deriving DecidableEq

/-- Source `clamp01` of `socioeconomic.ts`. Unlike the geographic module's
`clamp01`, it only guards against `NaN`; infinities are clamped by the
comparisons (`∞ → 1`, `-∞ → 0`). -/
def clamp01 (x : JSNum) : JSNum :=
  if x.isNaN then JSNum.fin 0
  else if JSNum.lt x (JSNum.fin 0) then JSNum.fin 0
  else if JSNum.lt (JSNum.fin 1) x then JSNum.fin 1
  else x

/-- Source `clamp` of `socioeconomic.ts` (again only a `NaN` guard). -/
def clamp (x mn mx : JSNum) : JSNum :=
  if x.isNaN then mn
  else JSNum.jsMin mx (JSNum.jsMax mn x)

/-- Source `riskCategoryFromScore`: `s ≥ 66 → alto`, `s ≥ 33 → medio`, else `bajo`. -/
def riskCategoryFromScore (score : JSNum) : Cat :=
  if JSNum.le (JSNum.fin 66) score then Cat.alto
  else if JSNum.le (JSNum.fin 33) score then Cat.medio
  else Cat.bajo

/-- Source `dependents = Math.max(0, (r.elders65 || 0) + (r.childrenUnder10 || 0))`. -/
def dependents (r : SocioeconomicRecord) : JSNum :=
  JSNum.jsMax (JSNum.fin 0)
    (JSNum.add (JSNum.orDefault r.elders65 (JSNum.fin 0))
      (JSNum.orDefault r.childrenUnder10 (JSNum.fin 0)))

/-- Source `employmentTotal = (r.formalJobs || 0) + (r.informalJobs || 0)`. -/
def employmentTotal (r : SocioeconomicRecord) : JSNum :=
  JSNum.add (JSNum.orDefault r.formalJobs (JSNum.fin 0))
    (JSNum.orDefault r.informalJobs (JSNum.fin 0))

/-- Source `hasAnyInsurance = (r.healthInsuranceCount || 0) > 0`. -/
def hasAnyInsurance (r : SocioeconomicRecord) : Bool :=
  JSNum.lt (JSNum.fin 0) (JSNum.orDefault r.healthInsuranceCount (JSNum.fin 0))

/-- Source `householdSize = Math.max(1, r.householdSize || 1)` (division-by-zero floor). -/
def householdFloor (r : SocioeconomicRecord) : JSNum :=
  JSNum.jsMax (JSNum.fin 1) (JSNum.orDefault r.householdSize (JSNum.fin 1))

/-- Source `incomePerCapita = (r.monthlyIncome || 0) / householdSize`. -/
def incomePerCapita (r : SocioeconomicRecord) : JSNum :=
  JSNum.div (JSNum.orDefault r.monthlyIncome (JSNum.fin 0)) (householdFloor r)

/-- Sub-score: `sIncome = clamp01(1 - incomePerCapita / 1500)`. -/
def sIncome (r : SocioeconomicRecord) : JSNum :=
  clamp01 (JSNum.sub (JSNum.fin 1) (JSNum.div (incomePerCapita r) (JSNum.fin 1500)))

/-- Sub-score: `sDependents = clamp01(dependents / householdSize)`. -/
def sDependents (r : SocioeconomicRecord) : JSNum :=
  clamp01 (JSNum.div (dependents r) (householdFloor r))

/-- Sub-score: `sElders = clamp01((r.elders65 || 0) / householdSize)`. -/
def sElders (r : SocioeconomicRecord) : JSNum :=
  clamp01 (JSNum.div (JSNum.orDefault r.elders65 (JSNum.fin 0)) (householdFloor r))

/-- Sub-score: `sChronic = clamp01((r.chronicConditionCount || 0) / householdSize)`. -/
def sChronic (r : SocioeconomicRecord) : JSNum :=
  clamp01 (JSNum.div (JSNum.orDefault r.chronicConditionCount (JSNum.fin 0))
    (householdFloor r))

/-- Sub-score: `sNoInsurance = hasAnyInsurance ? 0 : 1`. -/
def sNoInsurance (r : SocioeconomicRecord) : JSNum :=
  if hasAnyInsurance r then JSNum.fin 0 else JSNum.fin 1

/-- Sub-score: `sIlliteracy = clamp01((r.illiterateCount || 0) / householdSize)`. -/
def sIlliteracy (r : SocioeconomicRecord) : JSNum :=
  clamp01 (JSNum.div (JSNum.orDefault r.illiterateCount (JSNum.fin 0))
    (householdFloor r))

/-- Sub-score: `sHigherEdu = clamp01((r.higherEducationCount || 0) / householdSize)`. -/
def sHigherEdu (r : SocioeconomicRecord) : JSNum :=
  clamp01 (JSNum.div (JSNum.orDefault r.higherEducationCount (JSNum.fin 0))
    (householdFloor r))

/-- Source `vulnerabilityScore = clamp(30*sIncome + 20*sDependents + 10*sElders +
15*sChronic + 15*sNoInsurance + 10*sIlliteracy - 5*sHigherEdu, 0, 100)`. -/
def vulnerabilityScore (r : SocioeconomicRecord) : JSNum :=
  clamp
    (JSNum.sub
      (JSNum.add
        (JSNum.add
          (JSNum.add
            (JSNum.add
              (JSNum.add (JSNum.mul (JSNum.fin 30) (sIncome r))
                (JSNum.mul (JSNum.fin 20) (sDependents r)))
              (JSNum.mul (JSNum.fin 10) (sElders r)))
            (JSNum.mul (JSNum.fin 15) (sChronic r)))
          (JSNum.mul (JSNum.fin 15) (sNoInsurance r)))
        (JSNum.mul (JSNum.fin 10) (sIlliteracy r)))
      (JSNum.mul (JSNum.fin 5) (sHigherEdu r)))
    (JSNum.fin 0) (JSNum.fin 100)

/-- Source `computeDerived` of `socioeconomic.ts`. -/
def computeDerived (r : SocioeconomicRecord) : DerivedIndicators :=
  { dependents := dependents r
    employmentTotal := employmentTotal r
    hasAnyInsurance := hasAnyInsurance r
    incomePerCapita := incomePerCapita r
    vulnerabilityScore := vulnerabilityScore r
    riskCategory := riskCategoryFromScore (vulnerabilityScore r) }

/-- Source `withDerived` of `socioeconomic.ts`. -/
def withDerived (r : SocioeconomicRecord) : SocioWithDerived :=
  { toSocioeconomicRecord := r, toDerivedIndicators := computeDerived r }

end Socioeconomic

/-! ## Bundled datasets -/

namespace Geographic

/-- Source `String(idx).padStart(3, "0")` for the generated identifiers. -/
def pad3 (n : ℕ) : String :=
  if n < 10 then ("00" ++ toString n)
  else if n < 100 then ("0" ++ toString n)
  else toString n

/-- The `rec` helper of `geographic.ts` (ids `GEOG-001..`). -/
def rec (idx : ℕ) (lat lng : ℚ) (zone department : String)
    (erosionSum erosionMean erosionStd sedimentSum sedimentMean sedimentStd : ℚ) :
    GeographicRecord :=
  { id := "GEOG-" ++ pad3 idx
    lat := lat, lng := lng, zone := zone, department := department
    erosionSum := JSNum.fin erosionSum
    erosionMean := JSNum.fin erosionMean
    erosionStd := JSNum.fin erosionStd
    sedimentSum := JSNum.fin sedimentSum
    sedimentMean := JSNum.fin sedimentMean
    sedimentStd := JSNum.fin sedimentStd }

/-- Source `geographicRaw`: the 18-row literal table of `geographic.ts`. -/
def geographicRaw : List GeographicRecord :=
  [ rec 1 (-16.394224) (-71.469349) "Asociación Los Olivos" "Arequipa"
      (-47.295373) (-0.00120237378924621) 0.0157621026301429
      56.1839459999999 0.00142834488369136 0.0315842240544365
  , rec 2 (-16.393202) (-71.468926) "Asociación Los Olivos" "Arequipa"
      (-50.244198) (-0.00123081176816422) 0.0158102372114366
      54.406455 0.001332772892068 0.0300769207685796
  , rec 3 (-16.39308) (-71.479171) "Asociación Héroes del Cenepa" "Arequipa"
      (-33.418393) (-0.00172704873385012) 0.0203642419147883
      29.408354 0.00151981157622739 0.0345942068914171
  , rec 4 (-16.394906) (-71.484159) "Asociación Héroes del Cenepa" "Arequipa"
      (-8.88996) (-0.00175068137061835) 0.0189243891005892
      2.359736 0.000464697912564001 0.0107159362387537
  , rec 5 (-16.392518) (-71.483483) "Asociación Héroes del Cenepa" "Arequipa"
      (-9.934339) (-0.00310739411948701) 0.027990019684418
      5.467676 0.00171025211135439 0.0366682420999237
  , rec 6 (-16.396844) (-71.483827) "Asociación Héroes del Cenepa" "Arequipa"
      (-4.714232) (-0.00176298878085265) 0.0187262660983751
      1.95406299999999 0.000730764023934181 0.014291893686451
  , rec 7 (-16.397229) (-71.48313) "Asociación Héroes del Cenepa" "Arequipa"
      (-5.545974) (-0.001739095014111) 0.0201680549883688
      5.545973 0.00173909470053308 0.0302249792304995
  , rec 8 (-16.404107) (-71.478406) "Asociación San Gerónimo" "Arequipa"
      (-2.702429) (-0.000711540021063717) 0.0084333773022747
      3.451062 0.000908652448657188 0.0160679558559837
  , rec 9 (-16.403934) (-71.478124) "Asociación Miguel Grau" "Arequipa"
      (-2.870302) (-0.000688156796931191) 0.00817167553534923
      3.977812 0.000953683049628386 0.0166577805217426
  , rec 10 (-16.403258) (-71.47743) "Asociación Villa Del Misti" "Arequipa"
      (-7.73971799999999) (-0.00141727119575169) 0.0160864324226057
      9.396763 0.00172070371726789 0.0323503169790241
  , rec 11 (-16.403235) (-71.479252) "Asociación Miguel Grau" "Arequipa"
      (-3.551973) (-0.000910295489492568) 0.00945386873220252
      3.977812 0.00101942901076371 0.0172205930283661
  , rec 12 (-16.405362) (-71.47793) "Asociación Miguel Grau" "Arequipa"
      (-1.517023) (-0.000515293138586956) 0.00786243292554358
      2.078371 0.000705968410326087 0.0140687535528962
  , rec 13 (-16.406663) (-71.475701) "Asociación Miguel Grau" "Arequipa"
      (-1.475149) (-0.00053525) 0.00809202204062114
      1.497645 0.000543412554426705 0.0125687747544284
  , rec 14 (-16.404435) (-71.478442) "Asociación Miguel Grau" "Arequipa"
      (-2.352365) (-0.000679481513575967) 0.00843473200441026
      2.677513 0.000773400635470826 0.0144833912554184
  , rec 15 (-16.396312) (-71.469612) "Asociación Los Olivos" "Arequipa"
      (-25.294173) (-0.00127317526551567) 0.0160303226521524
      26.343314 0.00132598349020989 0.0302083106041892
  , rec 16 (-16.395225) (-71.468467) "Asociación Los Olivos" "Arequipa"
      (-24.9028149999999) (-0.00121134424554917) 0.0156652544768983
      26.916436 0.00130929253818464 0.0301011051050529
  , rec 17 (-16.39425) (-71.470053) "Asociación Los Olivos" "Arequipa"
      (-29.143923) (-0.00129522790098217) 0.0166439665742345
      33.348058 0.00148207004133149 0.0325813883024292
  , rec 18 (-16.394433) (-71.469763) "Asociación Los Olivos" "Arequipa"
      (-26.755498) (-0.00120541980537033) 0.0157759006436174
      31.574869 0.00142254771129933 0.0320266778564364 ]

/-- Source `geographic = geographicRaw.map(withDerived)`. -/
def geographic : List GeographicWithDerived := geographicRaw.map withDerived

end Geographic

namespace Socioeconomic

/-- The `rec` helper of `socioeconomic.ts` (ids `SOC-001..`). -/
def rec (idx : ℕ) (lat lng : ℚ) (zone department : String)
    (genderCode ageCode householdSize elders65 childrenUnder10
      healthInsuranceCount chronicConditionCount higherEducationCount
      illiterateCount wallMaterialCode servicesDummy1 servicesDummy2
      monthlyIncome formalJobs informalJobs estimatedLossHousing : ℚ) :
    SocioeconomicRecord :=
  { id := "SOC-" ++ Geographic.pad3 idx
    lat := lat, lng := lng, zone := zone, department := department
    genderCode := JSNum.fin genderCode
    ageCode := JSNum.fin ageCode
    householdSize := JSNum.fin householdSize
    elders65 := JSNum.fin elders65
    childrenUnder10 := JSNum.fin childrenUnder10
    healthInsuranceCount := JSNum.fin healthInsuranceCount
    chronicConditionCount := JSNum.fin chronicConditionCount
    higherEducationCount := JSNum.fin higherEducationCount
    illiterateCount := JSNum.fin illiterateCount
    wallMaterialCode := JSNum.fin wallMaterialCode
    servicesDummy1 := JSNum.fin servicesDummy1
    servicesDummy2 := JSNum.fin servicesDummy2
    monthlyIncome := JSNum.fin monthlyIncome
    formalJobs := JSNum.fin formalJobs
    informalJobs := JSNum.fin informalJobs
    estimatedLossHousing := JSNum.fin estimatedLossHousing }

/-- Source `socioeconomicRaw`: the 16-row literal table of `socioeconomic.ts`. -/
def socioeconomicRaw : List SocioeconomicRecord :=
  [ rec 1 (-16.394224) (-71.469349) "Asociación Los Olivos" "Arequipa"
      0 0 3 0 1 1 0 0 0 0 0 1 1500 0 1 200
  , rec 2 (-16.393202) (-71.468926) "Asociación Los Olivos" "Arequipa"
      1 0 4 0 2 2 0 1 0 0 0 1 2000 0 1 200
  , rec 3 (-16.39308) (-71.479171) "Asociación Héroes del Cenepa" "Arequipa"
      0 1 2 1 0 2 2 0 0 0 1 0 1200 0 1 200
  , rec 4 (-16.394906) (-71.484159) "Asociación Héroes del Cenepa" "Arequipa"
      0 1 6 0 1 6 0 0 0 0 1 0 2000 0 2 200
  , rec 5 (-16.392518) (-71.483483) "Asociación Héroes del Cenepa" "Arequipa"
      1 0 4 0 1 1 0 0 1 0 1 0 500 0 1 200
  , rec 6 (-16.396844) (-71.483827) "Asociación Héroes del Cenepa" "Arequipa"
      0 0 4 0 2 0 0 0 0 0 0 1 1500 0 1 200
  , rec 7 (-16.397229) (-71.48313) "Asociación Héroes del Cenepa" "Arequipa"
      0 1 2 1 0 1 1 0 0 1 0 1 900 0 1 200
  , rec 8 (-16.404107) (-71.478406) "Asociación San Gerónimo" "Arequipa"
      0 0 5 1 2 0 0 0 0 0 1 0 2800 1 1 0
  , rec 9 (-16.403934) (-71.478124) "Asociación Miguel Grau" "Arequipa"
      1 0 5 0 2 4 0 0 0 0 0 0 3000 1 1 300
  , rec 10 (-16.403258) (-71.47743) "Asociación Villa Del Misti" "Arequipa"
      0 1 2 0 0 0 0 0 0 1 1 0 900 0 2 300
  , rec 11 (-16.403235) (-71.479252) "Asociación Miguel Grau" "Arequipa"
      0 0 6 1 1 6 2 1 0 0 0 0 1500 1 2 600
  , rec 12 (-16.405362) (-71.47793) "Asociación Miguel Grau" "Arequipa"
      0 1 9 1 6 0 0 0 3 0 1 0 3000 0 3 300
  , rec 13 (-16.406663) (-71.475701) "Asociación Miguel Grau" "Arequipa"
      0 0 5 1 0 0 0 1 0 0 0 0 900 1 1 600
  , rec 14 (-16.404435) (-71.478442) "Asociación Miguel Grau" "Arequipa"
      0 0 3 0 1 1 0 1 1 0 0 0 4500 0 2 600
  , rec 15 (-16.396312) (-71.469612) "Asociación Los Olivos" "Arequipa"
      0 0 6 1 3 1 1 1 1 0 0 1 1050 0 2 200
  , rec 16 (-16.395225) (-71.468467) "Asociación Los Olivos" "Arequipa"
      0 1 2 2 0 2 2 0 0 0 0 1 900 0 1 200 ]

/-- Source `socioeconomic = socioeconomicRaw.map(withDerived)`. -/
def socioeconomic : List SocioWithDerived := socioeconomicRaw.map withDerived

end Socioeconomic

/-! ## Unified point join module (`src/lib/unified-points.ts`) -/

namespace Unified

/-- Loss-risk category (`LossRisk = "bajo" | "medio" | "alto"`). -/
abbrev LossRisk := Cat

/-- Source `x.toFixed(6)` on an exact rational: sign flag plus the magnitude
rounded to an integer number of micro-units (ties away from zero, per the
ECMAScript `toFixed` algorithm). Two coordinates produce the same key
string exactly when these pairs agree. -/
def toFixed6 (x : ℚ) : Bool × ℤ :=
  (decide (x < 0), ⌊|x| * 1000000 + 1 / 2⌋)

/-- The coordinate key `"lat.toFixed(6),lng.toFixed(6)"` of `coordKey`. -/
def coordKey (lat lng : ℚ) : (Bool × ℤ) × (Bool × ℤ) :=
  (toFixed6 lat, toFixed6 lng)

/-- The exact-match index: `geographic.forEach(g => map.set(coordKey(g), g))`.
Later rows overwrite earlier ones, so a lookup returns the last row of the
list whose key matches. -/
def geoLookup (geos : List Geographic.GeographicWithDerived)
    (k : (Bool × ℤ) × (Bool × ℤ)) : Option Geographic.GeographicWithDerived :=
  geos.reverse.find? (fun g => decide (coordKey g.lat g.lng = k))

/-- The distance oracle abstracting `haversineMeters` (in meters). -/
def Dist : Type := (ℚ × ℚ) → (ℚ × ℚ) → ℚ

/-- One step of the `nearestGeo` scan: keep the candidate when
`d < bestD && d <= maxMeters` (initially `bestD = Infinity`). -/
def nearestStep (dist : Dist) (lat lng maxMeters : ℚ)
    (best : Option (Geographic.GeographicWithDerived × ℚ))
    (g : Geographic.GeographicWithDerived) :
    Option (Geographic.GeographicWithDerived × ℚ) :=
  let d := dist (lat, lng) (g.lat, g.lng)
  match best with
  | none => if d ≤ maxMeters then some (g, d) else none
  | some (g0, bestD) => if d < bestD ∧ d ≤ maxMeters then some (g, d) else some (g0, bestD)

/-- Source `nearestGeo`: nearest geographic record within `maxMeters`
(first record wins ties, exactly as the strict `d < bestD` scan). -/
def nearestGeo (dist : Dist) (geos : List Geographic.GeographicWithDerived)
    (lat lng maxMeters : ℚ) : Option Geographic.GeographicWithDerived :=
  (geos.foldl (nearestStep dist lat lng maxMeters) none).map Prod.fst

/-- The per-record match of the join loop: exact key lookup first, then the
nearest-neighbour fallback with the 150 m cap. -/
def matchGeo (dist : Dist) (geos : List Geographic.GeographicWithDerived)
    (s : Socioeconomic.SocioWithDerived) : Option Geographic.GeographicWithDerived :=
  match geoLookup geos (coordKey s.lat s.lng) with
  | some g => some g
  | none => nearestGeo dist geos s.lat s.lng 150

/-- The `usedGeoIds` set after the socioeconomic loop: the ids of all
matched geographic records. -/
def usedGeoIds (dist : Dist) (socios : List Socioeconomic.SocioWithDerived)
    (geos : List Geographic.GeographicWithDerived) : List String :=
  (socios.filterMap (matchGeo dist geos)).map (fun g => g.id)

/-- Source `UnifiedPoint` (the source's optional field `socio` is named
`socioRec` here, and `geo` is named `geoRec`). -/
structure UnifiedPoint where
  id : String
  lat : ℚ
  lng : ℚ
  zone : String
  department : String
  socioRec : Option Socioeconomic.SocioWithDerived
  geoRec : Option Geographic.GeographicWithDerived
  lossHousing : JSNum
  lossRiskCategory : LossRisk
deriving DecidableEq

/-- Source `values.filter(Number.isFinite).slice().sort((a,b) => a-b)`: the finite
values in ascending order. -/
def sortedFinite (values : List JSNum) : List ℚ :=
  List.insertionSort (fun a b => a ≤ b) (values.filterMap JSNum.toFinite)

/-- The local `q` of `computeLossThresholds`: linear interpolation between
the order statistics at `⌊idx⌋` and `⌈idx⌉` where `idx = (n-1)*p`. -/
def quantile (xs : List ℚ) (p : ℚ) : ℚ :=
  let idx : ℚ := ((xs.length : ℚ) - 1) * p
  let lo : ℕ := (⌊idx⌋).toNat
  let hi : ℕ := (⌈idx⌉).toNat
  if lo = hi then xs.getD lo 0
  else
    let w : ℚ := idx - (lo : ℚ)
    xs.getD lo 0 * (1 - w) + xs.getD hi 0 * w

/-- Source `computeLossThresholds`: the 33rd/66th percentiles of the finite values,
or the static fallback `(200, 500)` when fewer than 4 finite values exist. -/
def computeLossThresholds (values : List JSNum) : ℚ × ℚ :=
  if (sortedFinite values).length < 4 then (200, 500)
  else (quantile (sortedFinite values) (0.33 : ℚ),
    quantile (sortedFinite values) (0.66 : ℚ))

/-- Source `riskCategoryFromLoss`. -/
def riskCategoryFromLoss (loss : JSNum) (tLow tMid : ℚ) : LossRisk :=
  if loss.isFinite = false then Cat.bajo
  else if JSNum.le loss (JSNum.fin tLow) then Cat.bajo
  else if JSNum.le loss (JSNum.fin tMid) then Cat.medio
  else Cat.alto

/-- Source `inferLossRiskForGeoOnly`: loss risk of a geo-only point from its own
hazard score (`≥66 → alto`, `≥33 → medio`, else `bajo`). -/
def inferLossRiskForGeoOnly (g : Geographic.GeographicWithDerived) : LossRisk :=
  if JSNum.le (JSNum.fin 66) g.hazardScore then Cat.alto
  else if JSNum.le (JSNum.fin 33) g.hazardScore then Cat.medio
  else Cat.bajo

/-- The point pushed for a socioeconomic record (loop 3 of `joinPoints`). -/
def mkSocioPoint (th : ℚ × ℚ) (s : Socioeconomic.SocioWithDerived)
    (g : Option Geographic.GeographicWithDerived) : UnifiedPoint :=
  { id := s.id, lat := s.lat, lng := s.lng
    zone := s.zone, department := s.department
    socioRec := some s, geoRec := g
    lossHousing := JSNum.orDefault s.estimatedLossHousing (JSNum.fin 0)
    lossRiskCategory :=
      riskCategoryFromLoss (JSNum.orDefault s.estimatedLossHousing (JSNum.fin 0))
        th.1 th.2 }

/-- The point pushed for an unmatched geographic record (loop 4). -/
def mkGeoPoint (g : Geographic.GeographicWithDerived) : UnifiedPoint :=
  { id := g.id, lat := g.lat, lng := g.lng
    zone := g.zone, department := g.department
    socioRec := none, geoRec := some g
    lossHousing := JSNum.fin 0
    lossRiskCategory := inferLossRiskForGeoOnly g }

/-- Source `joinPoints`: thresholds from the loss distribution, one point per
socioeconomic record (with exact-key or nearest-neighbour geo match), then
one geo-only point per unmatched geographic record. The imperative
`usedGeoIds` set is the set of ids matched during the first loop. -/
def lossesOf (socios : List Socioeconomic.SocioWithDerived) : List JSNum :=
  socios.map (fun r => JSNum.orDefault r.estimatedLossHousing (JSNum.fin 0))

def joinPoints (dist : Dist) (socios : List Socioeconomic.SocioWithDerived)
    (geos : List Geographic.GeographicWithDerived) :
    List UnifiedPoint × (ℚ × ℚ) :=
  ((socios.map (fun s =>
      mkSocioPoint (computeLossThresholds (lossesOf socios)) s (matchGeo dist geos s)))
    ++ ((geos.filter (fun g => !((usedGeoIds dist socios geos).contains g.id))).map mkGeoPoint),
   computeLossThresholds (lossesOf socios))

/-- The memoised module-level dataset, as a function of the distance
oracle: `const { points, thresholds } = joinPoints()`. -/
def unifiedPointsD (dist : Dist) : List UnifiedPoint :=
  (joinPoints dist Socioeconomic.socioeconomic Geographic.geographic).1

/-- The memoised thresholds (`getLossThresholds`). -/
def lossThresholdsD (dist : Dist) : ℚ × ℚ :=
  (joinPoints dist Socioeconomic.socioeconomic Geographic.geographic).2

/-- Source `getUnifiedPointById(id) = unifiedPoints.find(p => p.id === id)`. -/
def getUnifiedPointById (dist : Dist) (i : String) : Option UnifiedPoint :=
  (unifiedPointsD dist).find? (fun p => decide (p.id = i))

end Unified

/-! ## Basic lemmas about the JS-number model -/

namespace JSNum

theorem add_ne_undef (a b : JSNum) : add a b ≠ undef := by
  cases a <;> cases b <;> simp [add]

theorem sub_ne_undef (a b : JSNum) : sub a b ≠ undef := by
  unfold sub
  exact add_ne_undef a (neg b)

theorem div_ne_undef (a b : JSNum) : div a b ≠ undef := by
  cases a <;> cases b <;> simp [div] <;> split_ifs <;> simp

theorem fin_add_fin (a b : ℚ) : add (fin a) (fin b) = fin (a + b) := rfl

theorem fin_mul_fin (a b : ℚ) : mul (fin a) (fin b) = fin (a * b) := rfl

theorem fin_sub_fin (a b : ℚ) : sub (fin a) (fin b) = fin (a - b) := by
  simp [sub, add, neg]
  ring

end JSNum

/-! ## Clamping lemmas -/

/-- Source `x` is a finite value lying in `[lo, hi]`. -/
def scoreIn (x : JSNum) (lo hi : ℚ) : Prop :=
  ∃ q : ℚ, x = JSNum.fin q ∧ lo ≤ q ∧ q ≤ hi

namespace Geographic

theorem clamp01_scoreIn (x : JSNum) : scoreIn (clamp01 x) 0 1 := by
  cases x with
  | fin q =>
      simp only [clamp01, JSNum.isFinite, JSNum.lt]
      by_cases h0 : q < 0
      · exact ⟨0, by simp [h0], le_refl 0, zero_le_one⟩
      · by_cases h1 : (1 : ℚ) < q
        · exact ⟨1, by simp [h0, h1], zero_le_one, le_refl 1⟩
        · exact ⟨q, by simp [h0, h1], le_of_not_lt h0, le_of_not_lt h1⟩
  | nan => exact ⟨0, rfl, le_refl 0, zero_le_one⟩
  | undef => exact ⟨0, rfl, le_refl 0, zero_le_one⟩
  | inf => exact ⟨0, rfl, le_refl 0, zero_le_one⟩
  | ninf => exact ⟨0, rfl, le_refl 0, zero_le_one⟩

theorem clamp_scoreIn (x : JSNum) : scoreIn (clamp x (JSNum.fin 0) (JSNum.fin 100)) 0 100 := by
  cases x with
  | fin q =>
      refine ⟨min 100 (max 0 q), rfl, le_min (by norm_num) (le_max_left 0 q), min_le_left _ _⟩
  | nan => exact ⟨0, rfl, le_refl 0, by norm_num⟩
  | undef => exact ⟨0, rfl, le_refl 0, by norm_num⟩
  | inf => exact ⟨0, rfl, le_refl 0, by norm_num⟩
  | ninf => exact ⟨0, rfl, le_refl 0, by norm_num⟩

end Geographic

namespace Socioeconomic

theorem vuln_clamp01_scoreIn (x : JSNum) (hx : x ≠ JSNum.undef) : scoreIn (clamp01 x) 0 1 := by
  cases x with
  | fin q =>
      simp only [clamp01, JSNum.isNaN, JSNum.lt]
      by_cases h0 : q < 0
      · exact ⟨0, by simp [h0], le_refl 0, zero_le_one⟩
      · by_cases h1 : (1 : ℚ) < q
        · exact ⟨1, by simp [h0, h1], zero_le_one, le_refl 1⟩
        · exact ⟨q, by simp [h0, h1], le_of_not_lt h0, le_of_not_lt h1⟩
  | nan => exact ⟨0, rfl, le_refl 0, zero_le_one⟩
  | undef => exact absurd rfl hx
  | inf => exact ⟨1, rfl, zero_le_one, le_refl 1⟩
  | ninf => exact ⟨0, rfl, le_refl 0, zero_le_one⟩

theorem vuln_clamp_scoreIn (x : JSNum) (hx : x ≠ JSNum.undef) :
    scoreIn (clamp x (JSNum.fin 0) (JSNum.fin 100)) 0 100 := by
  cases x with
  | fin q =>
      refine ⟨min 100 (max 0 q), rfl, le_min (by norm_num) (le_max_left 0 q), min_le_left _ _⟩
  | nan => exact ⟨0, rfl, le_refl 0, by norm_num⟩
  | undef => exact absurd rfl hx
  | inf => exact ⟨100, rfl, by norm_num, le_refl 100⟩
  | ninf => exact ⟨0, rfl, le_refl 0, by norm_num⟩

end Socioeconomic

/-! ## Claim theorems: breakpoints and clamping -/

/-- C2: for every score `s`, the breakpoint function returns `alto` iff
`s ≥ 66`, `medio` iff `33 ≤ s < 66` and `bajo` iff `s < 33`; and the three
scoring paths (geographic `scoreToCategory`, socioeconomic
`riskCategoryFromScore`, geo-only `inferLossRiskForGeoOnly`) apply exactly
the same breakpoint mapping. -/
theorem breakpoint_consistency :
    (∀ s : ℚ,
      (Geographic.scoreToCategory (JSNum.fin s) = Cat.alto ↔ 66 ≤ s)
      ∧ (Geographic.scoreToCategory (JSNum.fin s) = Cat.medio ↔ 33 ≤ s ∧ s < 66)
      ∧ (Geographic.scoreToCategory (JSNum.fin s) = Cat.bajo ↔ s < 33))
    ∧ (∀ x : JSNum, Socioeconomic.riskCategoryFromScore x = Geographic.scoreToCategory x)
    ∧ (∀ g : Geographic.GeographicWithDerived,
        Unified.inferLossRiskForGeoOnly g = Geographic.scoreToCategory g.hazardScore) := by
  refine ⟨fun s => ?_, fun x => rfl, fun g => rfl⟩
  have e1 : Geographic.scoreToCategory (JSNum.fin s)
      = if 66 ≤ s then Cat.alto else if 33 ≤ s then Cat.medio else Cat.bajo := by
    simp [Geographic.scoreToCategory, JSNum.le]
  rw [e1]
  split_ifs with h66 h33
  · exact ⟨iff_of_true rfl h66,
      iff_of_false (by decide) (fun hc => absurd h66 (not_le.mpr hc.2)),
      iff_of_false (by decide) (not_lt.mpr (by linarith))⟩
  · exact ⟨iff_of_false (by decide) h66,
      iff_of_true rfl ⟨h33, lt_of_not_le h66⟩,
      iff_of_false (by decide) (not_lt.mpr h33)⟩
  · exact ⟨iff_of_false (by decide) h66,
      iff_of_false (by decide) (fun hc => h33 hc.1),
      iff_of_true rfl (lt_of_not_le h33)⟩

/-- C5: for every record with arbitrary (finite or non-finite) numeric
fields, each derived 0–1 sub-score of the geographic and socioeconomic
`computeDerived` is a finite value in `[0,1]`, the composite `hazardScore`
and `vulnerabilityScore` are finite values in `[0,100]`, and hence no
`NaN`/`undefined` input ever reaches a derived score or category. -/
theorem computeDerived_scores_bounded
    (r : Geographic.GeographicRecord) (h : Socioeconomic.SocioeconomicRecord) :
    scoreIn (Geographic.erosionIntensity r) 0 1
    ∧ scoreIn (Geographic.sedimentIntensity r) 0 1
    ∧ scoreIn (Geographic.magnitudeScore r) 0 1
    ∧ scoreIn ((Geographic.computeDerived r).variabilityIndex) 0 1
    ∧ scoreIn ((Geographic.computeDerived r).hazardScore) 0 100
    ∧ scoreIn (Socioeconomic.sIncome h) 0 1
    ∧ scoreIn (Socioeconomic.sDependents h) 0 1
    ∧ scoreIn (Socioeconomic.sElders h) 0 1
    ∧ scoreIn (Socioeconomic.sChronic h) 0 1
    ∧ scoreIn (Socioeconomic.sNoInsurance h) 0 1
    ∧ scoreIn (Socioeconomic.sIlliteracy h) 0 1
    ∧ scoreIn (Socioeconomic.sHigherEdu h) 0 1
    ∧ scoreIn ((Socioeconomic.computeDerived h).vulnerabilityScore) 0 100 := by
  refine ⟨Geographic.clamp01_scoreIn _, Geographic.clamp01_scoreIn _,
    Geographic.clamp01_scoreIn _, Geographic.clamp01_scoreIn _,
    Geographic.clamp_scoreIn _,
    Socioeconomic.vuln_clamp01_scoreIn _ (JSNum.sub_ne_undef _ _),
    Socioeconomic.vuln_clamp01_scoreIn _ (JSNum.div_ne_undef _ _),
    Socioeconomic.vuln_clamp01_scoreIn _ (JSNum.div_ne_undef _ _),
    Socioeconomic.vuln_clamp01_scoreIn _ (JSNum.div_ne_undef _ _),
    ?_,
    Socioeconomic.vuln_clamp01_scoreIn _ (JSNum.div_ne_undef _ _),
    Socioeconomic.vuln_clamp01_scoreIn _ (JSNum.div_ne_undef _ _),
    Socioeconomic.vuln_clamp_scoreIn _ (JSNum.sub_ne_undef _ _)⟩
  unfold Socioeconomic.sNoInsurance
  by_cases hi : Socioeconomic.hasAnyInsurance h
  · exact ⟨0, by simp [hi], le_refl 0, zero_le_one⟩
  · exact ⟨1, by simp [hi], zero_le_one, le_refl 1⟩

/-! ## Claim: loss thresholds (percentile computation) -/

namespace Unified

/-- Spec-side definition, following the specification's words only: the
percentile of a sorted list by linear interpolation between the adjacent
order statistics at index `p·(n−1)`, the weight split between floor and
ceil. To be compared with the source-side `quantile`. -/
def percentileSpec (xs : List ℚ) (p : ℚ) : ℚ :=
  xs.getD (⌊((xs.length : ℚ) - 1) * p⌋).toNat 0
    * (1 - (((xs.length : ℚ) - 1) * p - ((⌊((xs.length : ℚ) - 1) * p⌋).toNat : ℚ)))
  + xs.getD (⌈((xs.length : ℚ) - 1) * p⌉).toNat 0
    * (((xs.length : ℚ) - 1) * p - ((⌊((xs.length : ℚ) - 1) * p⌋).toNat : ℚ))

theorem quantile_eq_percentileSpec (xs : List ℚ) (p : ℚ)
    (h : 0 ≤ ((xs.length : ℚ) - 1) * p) :
    quantile xs p = percentileSpec xs p := by
  unfold quantile percentileSpec
  simp only []
  have hfl : (0 : ℤ) ≤ ⌊((xs.length : ℚ) - 1) * p⌋ := Int.floor_nonneg.mpr h
  have hcast : ((((⌊((xs.length : ℚ) - 1) * p⌋).toNat : ℤ) : ℚ))
      = ((⌊((xs.length : ℚ) - 1) * p⌋ : ℤ) : ℚ) := by
    exact_mod_cast congrArg (fun z => ((z : ℤ) : ℚ)) (Int.toNat_of_nonneg hfl)
  split_ifs with he
  · have hle : ⌊((xs.length : ℚ) - 1) * p⌋ ≤ ⌈((xs.length : ℚ) - 1) * p⌉ :=
      Int.floor_le_ceil _
    have hc : ⌈((xs.length : ℚ) - 1) * p⌉ = ⌊((xs.length : ℚ) - 1) * p⌋ := by omega
    have hidx : ((xs.length : ℚ) - 1) * p = ((⌊((xs.length : ℚ) - 1) * p⌋ : ℤ) : ℚ) := by
      have h1 : ((xs.length : ℚ) - 1) * p ≤ ((⌈((xs.length : ℚ) - 1) * p⌉ : ℤ) : ℚ) :=
        Int.le_ceil _
      rw [hc] at h1
      exact le_antisymm h1 (Int.floor_le _)
    have hw : ((xs.length : ℚ) - 1) * p - ((((⌊((xs.length : ℚ) - 1) * p⌋).toNat : ℕ) : ℚ)) = 0 := by
      push_cast at hcast ⊢
      rw [hcast, ← hidx]
      ring
    rw [hw, he]
    ring
  · rfl

end Unified

/-- C3: `computeLossThresholds` returns the 33rd and 66th percentiles of
the sorted finite input values (linear interpolation between adjacent order
statistics at index `p·(n−1)`) when at least 4 finite values exist, and the
static fallback `(200, 500)` otherwise. -/
theorem computeLossThresholds_spec (values : List JSNum) :
    (4 ≤ (Unified.sortedFinite values).length →
       Unified.computeLossThresholds values
         = (Unified.percentileSpec (Unified.sortedFinite values) (33 / 100),
            Unified.percentileSpec (Unified.sortedFinite values) (66 / 100)))
    ∧ ((Unified.sortedFinite values).length < 4 →
       Unified.computeLossThresholds values = (200, 500)) := by
  constructor
  · intro h4
    have hn : (3 : ℚ) ≤ ((Unified.sortedFinite values).length : ℚ) - 1 := by
      have : (4 : ℚ) ≤ ((Unified.sortedFinite values).length : ℚ) := by exact_mod_cast h4
      linarith
    have h33 : (0.33 : ℚ) = 33 / 100 := by norm_num
    have h66 : (0.66 : ℚ) = 66 / 100 := by norm_num
    unfold Unified.computeLossThresholds
    rw [if_neg (by omega), h33, h66,
      Unified.quantile_eq_percentileSpec _ _ (by positivity),
      Unified.quantile_eq_percentileSpec _ _ (by positivity)]
  · intro h4
    unfold Unified.computeLossThresholds
    rw [if_pos h4]

/-- Witness for `computeLossThresholds_spec` at the concrete input
`[0, 1, 2, 3]` (four finite values). -/
theorem computeLossThresholds_spec_witness :
    4 ≤ (Unified.sortedFinite [JSNum.fin 0, JSNum.fin 1, JSNum.fin 2, JSNum.fin 3]).length
    ∧ Unified.computeLossThresholds [JSNum.fin 0, JSNum.fin 1, JSNum.fin 2, JSNum.fin 3]
        = (Unified.percentileSpec
            (Unified.sortedFinite [JSNum.fin 0, JSNum.fin 1, JSNum.fin 2, JSNum.fin 3]) (33 / 100),
           Unified.percentileSpec
            (Unified.sortedFinite [JSNum.fin 0, JSNum.fin 1, JSNum.fin 2, JSNum.fin 3]) (66 / 100)) :=
  ⟨by decide!,
   (computeLossThresholds_spec [JSNum.fin 0, JSNum.fin 1, JSNum.fin 2, JSNum.fin 3]).1 (by decide!)⟩

/-! ## Join helper lemmas -/

namespace Unified

/-- A trivial distance oracle, used to state facts that hold for every
oracle on the bundled datasets (where the fallback is never consulted). -/
def distZero : Dist := fun _ _ => (0 : ℚ)

theorem matchGeo_of_lookup_isSome (dist : Dist)
    (geos : List Geographic.GeographicWithDerived) (s : Socioeconomic.SocioWithDerived)
    (h : (geoLookup geos (coordKey s.lat s.lng)).isSome = true) :
    matchGeo dist geos s = geoLookup geos (coordKey s.lat s.lng) := by
  unfold matchGeo
  cases hl : geoLookup geos (coordKey s.lat s.lng) with
  | some g => rfl
  | none => rw [hl] at h; simp at h

/-- On the bundled datasets every socioeconomic record has an exact
coordinate-key match among the geographic records. -/
theorem allExact : ∀ s ∈ Socioeconomic.socioeconomic,
    (geoLookup Geographic.geographic (coordKey s.lat s.lng)).isSome = true := by
  decide!

theorem matchGeo_dist_irrel (dist : Dist) (s : Socioeconomic.SocioWithDerived)
    (hs : s ∈ Socioeconomic.socioeconomic) :
    matchGeo dist Geographic.geographic s = matchGeo distZero Geographic.geographic s := by
  rw [matchGeo_of_lookup_isSome dist _ _ (allExact s hs),
    matchGeo_of_lookup_isSome distZero _ _ (allExact s hs)]

theorem usedGeoIds_dist_irrel (dist : Dist) :
    usedGeoIds dist Socioeconomic.socioeconomic Geographic.geographic
      = usedGeoIds distZero Socioeconomic.socioeconomic Geographic.geographic := by
  unfold usedGeoIds
  rw [List.filterMap_congr (fun s hs => matchGeo_dist_irrel dist s hs)]

/-- On the bundled datasets the join result does not depend on the distance
oracle: the nearest-neighbour fallback is never consulted. -/
theorem joinPoints_dist_irrel (dist : Dist) :
    joinPoints dist Socioeconomic.socioeconomic Geographic.geographic
      = joinPoints distZero Socioeconomic.socioeconomic Geographic.geographic := by
  unfold joinPoints
  rw [usedGeoIds_dist_irrel dist,
    List.map_congr_left (fun s hs => by rw [matchGeo_dist_irrel dist s hs])]

end Unified

/-! ## Claim: shape of unified points -/

/-- C9: every point produced by the join has `socio` or `geo` present;
points emitted for a socioeconomic record carry `socio`, and geo-only
points carry `geo`, no `socio`, and a `lossHousing` of `0`. -/
theorem unifiedPoint_presence (dist : Unified.Dist)
    (socios : List Socioeconomic.SocioWithDerived)
    (geos : List Geographic.GeographicWithDerived)
    (p : Unified.UnifiedPoint)
    (hp : p ∈ (Unified.joinPoints dist socios geos).1) :
    (p.socioRec.isSome = true ∨ p.geoRec.isSome = true)
    ∧ (p.socioRec = none →
        p.geoRec.isSome = true ∧ p.lossHousing = JSNum.fin 0)
    ∧ (∀ s, p.socioRec = some s → s ∈ socios) := by
  unfold Unified.joinPoints at hp
  rw [List.mem_append] at hp
  cases hp with
  | inl hs =>
      obtain ⟨s, hsmem, rfl⟩ := List.mem_map.mp hs
      refine ⟨Or.inl rfl, ?_, ?_⟩
      · intro hc
        exact absurd hc (by simp [Unified.mkSocioPoint])
      · intro s' hs'
        have hss : some s = some s' := hs'
        exact Option.some.inj hss ▸ hsmem
  | inr hg =>
      obtain ⟨g, hgmem, rfl⟩ := List.mem_map.mp hg
      refine ⟨Or.inr rfl, fun _ => ⟨rfl, rfl⟩, ?_⟩
      intro s' hs'
      exact absurd hs' (by simp [Unified.mkGeoPoint])

/-- Witness for `unifiedPoint_presence`: the geo-only point of a join with
no socioeconomic records. -/
theorem unifiedPoint_presence_witness :
    ((Unified.mkGeoPoint (Geographic.withDerived
        (Geographic.rec 1 0 0 "Z" "D" 0 0 0 0 0 0))).socioRec.isSome = true
      ∨ (Unified.mkGeoPoint (Geographic.withDerived
        (Geographic.rec 1 0 0 "Z" "D" 0 0 0 0 0 0))).geoRec.isSome = true)
    ∧ ((Unified.mkGeoPoint (Geographic.withDerived
        (Geographic.rec 1 0 0 "Z" "D" 0 0 0 0 0 0))).socioRec = none →
        (Unified.mkGeoPoint (Geographic.withDerived
          (Geographic.rec 1 0 0 "Z" "D" 0 0 0 0 0 0))).geoRec.isSome = true
        ∧ (Unified.mkGeoPoint (Geographic.withDerived
          (Geographic.rec 1 0 0 "Z" "D" 0 0 0 0 0 0))).lossHousing = JSNum.fin 0)
    ∧ (∀ s, (Unified.mkGeoPoint (Geographic.withDerived
        (Geographic.rec 1 0 0 "Z" "D" 0 0 0 0 0 0))).socioRec = some s → s ∈ ([] : List Socioeconomic.SocioWithDerived)) :=
  unifiedPoint_presence Unified.distZero []
    [Geographic.withDerived (Geographic.rec 1 0 0 "Z" "D" 0 0 0 0 0 0)]
    (Unified.mkGeoPoint (Geographic.withDerived (Geographic.rec 1 0 0 "Z" "D" 0 0 0 0 0 0)))
    (by decide!)

/-! ## Claim: lookup by id -/

namespace Unified

theorem find_eq_head_filter {α : Type} (l : List α) (p : α → Bool) :
    l.find? p = (l.filter p).head? := by
  induction l with
  | nil => rfl
  | cons a t ih =>
      by_cases hpa : p a
      · simp [List.find?, List.filter, hpa]
      · simp only [List.find?, List.filter, Bool.not_eq_true] at hpa ⊢
        rw [hpa]
        simp only [ih]

end Unified

/-- C10: `getUnifiedPointById(id)` returns the first point of
`getUnifiedPoints()` whose id equals the argument, `none` when no point has
that id, and never a point with a different id. -/
theorem getUnifiedPointById_spec (dist : Unified.Dist) (i : String) :
    Unified.getUnifiedPointById dist i
      = ((Unified.unifiedPointsD dist).filter (fun p => decide (p.id = i))).head?
    ∧ (∀ p, Unified.getUnifiedPointById dist i = some p →
        p.id = i ∧ p ∈ Unified.unifiedPointsD dist)
    ∧ (Unified.getUnifiedPointById dist i = none
        ↔ ∀ p ∈ Unified.unifiedPointsD dist, p.id ≠ i) := by
  refine ⟨Unified.find_eq_head_filter _ _, fun p hp => ?_, ?_⟩
  · constructor
    · have := List.find?_some hp
      simpa using this
    · exact List.mem_of_find?_eq_some hp
  · unfold Unified.getUnifiedPointById
    rw [List.find?_eq_none]
    constructor
    · intro h p hp
      have := h p hp
      simpa using this
    · intro h p hp
      simpa using h p hp

/-- Witness for `getUnifiedPointById_spec`: an id absent from the dataset
gives `none`. -/
theorem getUnifiedPointById_spec_witness :
    Unified.getUnifiedPointById Unified.distZero "SOC-999" = none :=
  (getUnifiedPointById_spec Unified.distZero "SOC-999").2.2.mpr (by
    rw [Unified.unifiedPointsD, Unified.joinPoints_dist_irrel]
    decide!)

/-! ## Claim: matching behaviour of the join -/

namespace Unified

theorem nearestStep_none (g : Geographic.GeographicWithDerived)
    (dist : Dist) (lat lng maxMeters : ℚ) :
    nearestStep dist lat lng maxMeters none g
      = if dist (lat, lng) (g.lat, g.lng) ≤ maxMeters
          then some (g, dist (lat, lng) (g.lat, g.lng)) else none := rfl

theorem nearestStep_some (g : Geographic.GeographicWithDerived)
    (p : Geographic.GeographicWithDerived × ℚ) (dist : Dist) (lat lng maxMeters : ℚ) :
    nearestStep dist lat lng maxMeters (some p) g
      = if dist (lat, lng) (g.lat, g.lng) < p.2 ∧ dist (lat, lng) (g.lat, g.lng) ≤ maxMeters
          then some (g, dist (lat, lng) (g.lat, g.lng)) else some p := rfl

theorem nearest_fold_spec (dist : Dist) (lat lng maxMeters : ℚ)
    (l : List Geographic.GeographicWithDerived)
    (acc : Option (Geographic.GeographicWithDerived × ℚ)) :
    (l.foldl (nearestStep dist lat lng maxMeters) acc = none →
        acc = none ∧ ∀ g ∈ l, ¬ dist (lat, lng) (g.lat, g.lng) ≤ maxMeters)
    ∧ (∀ res, l.foldl (nearestStep dist lat lng maxMeters) acc = some res →
        (acc = some res
          ∨ (res.1 ∈ l ∧ res.2 = dist (lat, lng) (res.1.lat, res.1.lng) ∧ res.2 ≤ maxMeters))
        ∧ (∀ g ∈ l, ¬ (dist (lat, lng) (g.lat, g.lng) < res.2
            ∧ dist (lat, lng) (g.lat, g.lng) ≤ maxMeters))
        ∧ (∀ p0, acc = some p0 → res.2 ≤ p0.2)) := by
  induction l generalizing acc with
  | nil =>
      refine ⟨fun h => ⟨by simpa using h, by simp⟩, fun res h => ?_⟩
      simp only [List.foldl_nil] at h
      refine ⟨Or.inl h, by simp, fun p0 hp0 => ?_⟩
      rw [h] at hp0
      rw [Option.some.inj hp0]
  | cons g tl ih =>
      rw [List.foldl_cons]
      refine ⟨fun h => ?_, fun res h => ?_⟩
      · obtain ⟨hstep, htl⟩ := (ih (nearestStep dist lat lng maxMeters acc g)).1 h
        cases acc with
        | none =>
            rw [nearestStep_none] at hstep
            split_ifs at hstep with hd
            refine ⟨rfl, ?_⟩
            intro g' hg'
            rcases List.mem_cons.mp hg' with rfl | hmem
            · exact hd
            · exact htl g' hmem
        | some p =>
            rw [nearestStep_some] at hstep
            split_ifs at hstep
      · obtain ⟨hA, hB, hC⟩ := (ih (nearestStep dist lat lng maxMeters acc g)).2 res h
        have hmono : ∀ p0, acc = some p0 → res.2 ≤ p0.2 := by
          intro p0 hacc
          subst hacc
          rw [nearestStep_some] at hC
          split_ifs at hC with hcond
          · exact le_trans (hC _ rfl) (le_of_lt hcond.1)
          · exact hC _ rfl
        have hgstep : ¬ (dist (lat, lng) (g.lat, g.lng) < res.2
            ∧ dist (lat, lng) (g.lat, g.lng) ≤ maxMeters) := by
          rintro ⟨hlt, hle⟩
          cases acc with
          | none =>
              rw [nearestStep_none, if_pos hle] at hC
              exact absurd (hC _ rfl) (not_le.mpr hlt)
          | some p =>
              rw [nearestStep_some] at hC
              split_ifs at hC with hcond
              · exact absurd (hC _ rfl) (not_le.mpr hlt)
              · have hp2 : p.2 ≤ dist (lat, lng) (g.lat, g.lng) := by
                  by_contra hcon
                  exact hcond ⟨lt_of_not_le hcon, hle⟩
                exact absurd (le_trans (hC _ rfl) hp2) (not_le.mpr hlt)
        refine ⟨?_, ?_, hmono⟩
        · rcases hA with hA | hA
          · cases acc with
            | none =>
                rw [nearestStep_none] at hA
                split_ifs at hA with hd
                rw [← Option.some.inj hA]
                exact Or.inr ⟨List.mem_cons_self g tl, rfl, hd⟩
            | some p =>
                rw [nearestStep_some] at hA
                split_ifs at hA with hcond
                · rw [← Option.some.inj hA]
                  exact Or.inr ⟨List.mem_cons_self g tl, rfl, hcond.2⟩
                · exact Or.inl (by rw [hA])
          · exact Or.inr ⟨List.mem_cons_of_mem g hA.1, hA.2⟩
        · intro g' hg'
          rcases List.mem_cons.mp hg' with rfl | hmem
          · exact hgstep
          · exact hB g' hmem

theorem nearestGeo_eq_none (dist : Dist) (geos : List Geographic.GeographicWithDerived)
    (lat lng maxMeters : ℚ) :
    nearestGeo dist geos lat lng maxMeters = none
      ↔ ∀ g ∈ geos, ¬ dist (lat, lng) (g.lat, g.lng) ≤ maxMeters := by
  unfold nearestGeo
  rw [Option.map_eq_none']
  constructor
  · intro h
    exact ((nearest_fold_spec dist lat lng maxMeters geos none).1 h).2
  · intro h
    cases hf : geos.foldl (nearestStep dist lat lng maxMeters) none with
    | none => rfl
    | some res =>
        obtain ⟨hA, _, _⟩ := (nearest_fold_spec dist lat lng maxMeters geos none).2 res hf
        rcases hA with hA | hA
        · cases hA
        · exact absurd hA.2.2 (by rw [hA.2.1]; exact h res.1 hA.1)

theorem nearestGeo_eq_some (dist : Dist) (geos : List Geographic.GeographicWithDerived)
    (lat lng maxMeters : ℚ) (g0 : Geographic.GeographicWithDerived)
    (h : nearestGeo dist geos lat lng maxMeters = some g0) :
    g0 ∈ geos ∧ dist (lat, lng) (g0.lat, g0.lng) ≤ maxMeters
    ∧ ∀ g ∈ geos, dist (lat, lng) (g0.lat, g0.lng) ≤ dist (lat, lng) (g.lat, g.lng) := by
  unfold nearestGeo at h
  rw [Option.map_eq_some'] at h
  obtain ⟨res, hf, hfst⟩ := h
  obtain ⟨hA, hB, _⟩ := (nearest_fold_spec dist lat lng maxMeters geos none).2 res hf
  rcases hA with hA | hA
  · cases hA
  · obtain ⟨hmem, hd, hle⟩ := hA
    subst hfst
    refine ⟨hmem, by rw [← hd]; exact hle, ?_⟩
    intro g hg
    rw [← hd]
    by_cases hgle : dist (lat, lng) (g.lat, g.lng) ≤ maxMeters
    · by_contra hcon
      exact hB g hg ⟨lt_of_not_le hcon, hgle⟩
    · exact le_trans hle (le_of_not_le hgle)

end Unified

/-- C4: for every socioeconomic record processed by the join, an exact
coordinate-key match (6-decimal rounding) wins; otherwise the record at
minimum distance is matched exactly when that distance is within 150
meters, and no geo is attached when no record lies within 150 meters;
every matched geographic record is marked used. The haversine distance is
abstracted by the oracle `dist`, so the statement holds for the source's
`haversineMeters` in particular. -/
theorem joinPoints_matching_spec (dist : Unified.Dist)
    (socios : List Socioeconomic.SocioWithDerived)
    (geos : List Geographic.GeographicWithDerived)
    (s : Socioeconomic.SocioWithDerived) (hs : s ∈ socios) :
    ((∃ g ∈ geos, Unified.coordKey g.lat g.lng = Unified.coordKey s.lat s.lng) →
       ∃ g0, Unified.matchGeo dist geos s = some g0 ∧ g0 ∈ geos
         ∧ Unified.coordKey g0.lat g0.lng = Unified.coordKey s.lat s.lng)
    ∧ ((¬ ∃ g ∈ geos, Unified.coordKey g.lat g.lng = Unified.coordKey s.lat s.lng) →
       (((∃ g ∈ geos, dist (s.lat, s.lng) (g.lat, g.lng) ≤ 150) →
          ∃ g0, Unified.matchGeo dist geos s = some g0 ∧ g0 ∈ geos
            ∧ dist (s.lat, s.lng) (g0.lat, g0.lng) ≤ 150
            ∧ ∀ g ∈ geos,
                dist (s.lat, s.lng) (g0.lat, g0.lng) ≤ dist (s.lat, s.lng) (g.lat, g.lng))
        ∧ ((∀ g ∈ geos, ¬ dist (s.lat, s.lng) (g.lat, g.lng) ≤ 150) →
            Unified.matchGeo dist geos s = none)))
    ∧ (∀ g0, Unified.matchGeo dist geos s = some g0 →
        g0.id ∈ Unified.usedGeoIds dist socios geos) := by
  refine ⟨?_, ?_, ?_⟩
  · rintro ⟨g, hg, hkey⟩
    have hsome : (Unified.geoLookup geos (Unified.coordKey s.lat s.lng)).isSome = true := by
      unfold Unified.geoLookup
      rw [List.find?_isSome]
      exact ⟨g, List.mem_reverse.mpr hg, by simp [hkey]⟩
    obtain ⟨g0, hg0⟩ := Option.isSome_iff_exists.mp hsome
    refine ⟨g0, ?_, ?_, ?_⟩
    · rw [Unified.matchGeo_of_lookup_isSome dist geos s hsome, hg0]
    · exact List.mem_reverse.mp (List.mem_of_find?_eq_some hg0)
    · have := List.find?_some hg0
      simpa using this
  · intro hno
    have hnone : Unified.geoLookup geos (Unified.coordKey s.lat s.lng) = none := by
      unfold Unified.geoLookup
      rw [List.find?_eq_none]
      intro g hg
      simp only [decide_eq_true_eq]
      exact fun hk => hno ⟨g, List.mem_reverse.mp hg, hk⟩
    have hmatch : Unified.matchGeo dist geos s
        = Unified.nearestGeo dist geos s.lat s.lng 150 := by
      unfold Unified.matchGeo
      rw [hnone]
    constructor
    · rintro ⟨g, hg, hgd⟩
      cases hn : Unified.nearestGeo dist geos s.lat s.lng 150 with
      | none => exact absurd hgd ((Unified.nearestGeo_eq_none dist geos s.lat s.lng 150).mp hn g hg)
      | some g0 =>
          obtain ⟨hmem, hd, hmin⟩ := Unified.nearestGeo_eq_some dist geos s.lat s.lng 150 g0 hn
          exact ⟨g0, by rw [hmatch, hn], hmem, hd, hmin⟩
    · intro hall
      rw [hmatch]
      exact (Unified.nearestGeo_eq_none dist geos s.lat s.lng 150).mpr hall
  · intro g0 hg0
    unfold Unified.usedGeoIds
    exact List.mem_map.mpr ⟨g0, List.mem_filterMap.mpr ⟨s, hs, hg0⟩, rfl⟩

/-- Witness for `joinPoints_matching_spec`: a one-record join where the
fallback match fires and marks the geographic record used. -/
theorem joinPoints_matching_spec_witness :
    (Geographic.withDerived (Geographic.rec 1 0 0 "Z" "D" 0 0 0 0 0 0)).id
      ∈ Unified.usedGeoIds Unified.distZero
          [Socioeconomic.withDerived
            (Socioeconomic.rec 1 1 1 "Z" "D" 0 0 0 0 0 0 0 0 0 0 0 0 0 0 0 0)]
          [Geographic.withDerived (Geographic.rec 1 0 0 "Z" "D" 0 0 0 0 0 0)] :=
  (joinPoints_matching_spec Unified.distZero
      [Socioeconomic.withDerived
        (Socioeconomic.rec 1 1 1 "Z" "D" 0 0 0 0 0 0 0 0 0 0 0 0 0 0 0 0)]
      [Geographic.withDerived (Geographic.rec 1 0 0 "Z" "D" 0 0 0 0 0 0)]
      (Socioeconomic.withDerived
        (Socioeconomic.rec 1 1 1 "Z" "D" 0 0 0 0 0 0 0 0 0 0 0 0 0 0 0 0))
      (by decide!)).2.2
    (Geographic.withDerived (Geographic.rec 1 0 0 "Z" "D" 0 0 0 0 0 0))
    (by decide!)

/-! ## Claim: zone aggregation -/

namespace Geographic

/-- Proof-side view of the accumulator map: first entry with the given key. -/
def entry (z : String) : List (String × GeoAcc) → Option GeoAcc
  | [] => none
  | e :: t => if e.1 = z then some e.2 else entry z t

/-- The effect of one row on the entry of key `z`. -/
def entryStep (z : String) (o : Option GeoAcc) (r : GeographicWithDerived) : Option GeoAcc :=
  if r.zone = z then
    some (addRow (match o with | some m => m | none => emptyAcc r.zone r.department) r)
  else o

theorem entry_bump (r : GeographicWithDerived) (acc : List (String × GeoAcc)) (z : String) :
    entry z (bump r acc) = entryStep z (entry z acc) r := by
  induction acc with
  | nil =>
      by_cases hz : r.zone = z <;> simp [bump, entry, entryStep, hz]
  | cons e t ih =>
      obtain ⟨k, m⟩ := e
      by_cases hk : k = r.zone
      · by_cases hz : k = z
        · have hrz : r.zone = z := by rw [← hk, hz]
          simp [bump, entry, entryStep, hk, hz, hrz]
        · have hrz : ¬ r.zone = z := by rw [← hk]; exact hz
          simp [bump, entry, entryStep, hk, hz, hrz]
      · by_cases hz : k = z
        · have hrz : ¬ r.zone = z := by
            intro hc
            exact hk (by rw [hz, ← hc])
          have hzr : ¬ z = r.zone := fun hc => hrz hc.symm
          simp [bump, entry, entryStep, hk, hz, hrz, hzr]
        · simp [bump, entry, entryStep, hk, hz, ih]

theorem entry_fold (rows : List GeographicWithDerived) (z : String) :
    ∀ acc, entry z (rows.foldl (fun a r => bump r a) acc)
      = rows.foldl (entryStep z) (entry z acc) := by
  induction rows with
  | nil => intro acc; rfl
  | cons r t ih =>
      intro acc
      rw [List.foldl_cons, List.foldl_cons, ih, entry_bump]

/-- Site count of an optional accumulator. -/
def oCount : Option GeoAcc → ℕ
  | some m => m.n
  | none => 0

/-- Erosion total of an optional accumulator. -/
def oErosion : Option GeoAcc → JSNum
  | some m => m.totalErosionSum
  | none => JSNum.fin 0

/-- Hazard total of an optional accumulator. -/
def oHazard : Option GeoAcc → JSNum
  | some m => m.sumHazard
  | none => JSNum.fin 0

theorem entryFold_measures (z : String) (rows : List GeographicWithDerived) :
    ∀ o, oCount (rows.foldl (entryStep z) o)
        = oCount o + (rows.filter (fun r => decide (r.zone = z))).length
      ∧ oErosion (rows.foldl (entryStep z) o)
        = (rows.filter (fun r => decide (r.zone = z))).foldl
            (fun a r => JSNum.add a r.erosionSum) (oErosion o)
      ∧ oHazard (rows.foldl (entryStep z) o)
        = (rows.filter (fun r => decide (r.zone = z))).foldl
            (fun a r => JSNum.add a r.hazardScore) (oHazard o) := by
  induction rows with
  | nil => intro o; exact ⟨rfl, rfl, rfl⟩
  | cons r t ih =>
      intro o
      by_cases hz : r.zone = z
      · have hstep : entryStep z o r
            = some (addRow (match o with | some m => m | none => emptyAcc r.zone r.department) r) := by
          simp [entryStep, hz]
        have hfil : (r :: t).filter (fun r => decide (r.zone = z))
            = r :: t.filter (fun r => decide (r.zone = z)) := by
          simp [List.filter, hz]
        obtain ⟨ihc, ihe, ihh⟩ := ih (entryStep z o r)
        rw [List.foldl_cons, hfil]
        refine ⟨?_, ?_, ?_⟩
        · rw [ihc, hstep]
          cases o <;> simp [oCount, addRow, emptyAcc] <;> omega
        · rw [ihe, List.foldl_cons, hstep]
          cases o <;> simp [oErosion, addRow, emptyAcc]
        · rw [ihh, List.foldl_cons, hstep]
          cases o <;> simp [oHazard, addRow, emptyAcc]
      · have hstep : entryStep z o r = o := by simp [entryStep, hz]
        have hfil : (r :: t).filter (fun r => decide (r.zone = z))
            = t.filter (fun r => decide (r.zone = z)) := by
          simp [List.filter, hz]
        rw [List.foldl_cons, hstep, hfil]
        exact ih o

/-- Total site count across all accumulator entries. -/
def sumSites (acc : List (String × GeoAcc)) : ℕ :=
  (acc.map (fun e => e.2.n)).sum

theorem sumSites_bump (r : GeographicWithDerived) (acc : List (String × GeoAcc)) :
    sumSites (bump r acc) = sumSites acc + 1 := by
  induction acc with
  | nil => simp [bump, sumSites, addRow, emptyAcc]
  | cons e t ih =>
      obtain ⟨k, m⟩ := e
      by_cases hk : k = r.zone
      · simp [bump, hk, sumSites, addRow]
        omega
      · simp only [bump, if_neg hk, sumSites, List.map_cons, List.sum_cons]
        have := ih
        simp only [sumSites] at this
        omega

theorem sumSites_fold (rows : List GeographicWithDerived) :
    ∀ acc, sumSites (rows.foldl (fun a r => bump r a) acc) = sumSites acc + rows.length := by
  induction rows with
  | nil => intro acc; simp
  | cons r t ih =>
      intro acc
      rw [List.foldl_cons, ih, sumSites_bump]
      simp only [List.length_cons]
      omega

/-- Keys of the accumulator list. -/
def accKeys (acc : List (String × GeoAcc)) : List String :=
  acc.map Prod.fst

theorem bump_keys (r : GeographicWithDerived) (acc : List (String × GeoAcc)) :
    accKeys (bump r acc) = accKeys acc
    ∨ (accKeys (bump r acc) = accKeys acc ++ [r.zone] ∧ r.zone ∉ accKeys acc) := by
  induction acc with
  | nil =>
      right
      constructor
      · rfl
      · simp [accKeys]
  | cons e t ih =>
      obtain ⟨k, m⟩ := e
      by_cases hk : k = r.zone
      · left
        simp [bump, hk, accKeys]
      · rcases ih with ih | ⟨ih1, ih2⟩
        · left
          have ih' : List.map Prod.fst (bump r t) = List.map Prod.fst t := ih
          simp only [bump, if_neg hk, accKeys, List.map_cons]
          rw [ih']
        · right
          constructor
          · have ih' : List.map Prod.fst (bump r t) = List.map Prod.fst t ++ [r.zone] := ih1
            simp only [bump, if_neg hk, accKeys, List.map_cons]
            rw [ih', List.cons_append]
          · simp only [accKeys, List.map_cons, List.mem_cons]
            rintro (hc | hc)
            · exact hk hc.symm
            · exact ih2 hc

theorem accKeys_nodup_bump (r : GeographicWithDerived) (acc : List (String × GeoAcc))
    (h : (accKeys acc).Nodup) : (accKeys (bump r acc)).Nodup := by
  rcases bump_keys r acc with hb | ⟨hb, hni⟩
  · rwa [hb]
  · rw [hb]
    simp only [List.nodup_append, List.nodup_cons, List.not_mem_nil, not_false_iff,
      List.nodup_nil, and_true, true_and]
    exact ⟨h, by simpa [List.disjoint_singleton] using hni⟩

theorem accKeys_nodup_fold (rows : List GeographicWithDerived) :
    ∀ acc, (accKeys acc).Nodup →
      (accKeys (rows.foldl (fun a r => bump r a) acc)).Nodup := by
  induction rows with
  | nil => intro acc h; exact h
  | cons r t ih =>
      intro acc h
      rw [List.foldl_cons]
      exact ih (bump r acc) (accKeys_nodup_bump r acc h)

theorem zone_coherent_bump (r : GeographicWithDerived) (acc : List (String × GeoAcc))
    (h : ∀ e ∈ acc, e.1 = e.2.zone) : ∀ e ∈ bump r acc, e.1 = e.2.zone := by
  induction acc with
  | nil =>
      intro e he
      simp only [bump, List.mem_singleton] at he
      rw [he]
      rfl
  | cons a t ih =>
      obtain ⟨k, m⟩ := a
      intro e he
      by_cases hk : k = r.zone
      · simp only [bump, if_pos hk, List.mem_cons] at he
        rcases he with rfl | he
        · have hkm : k = m.zone := h (k, m) (List.mem_cons_self _ _)
          simpa [addRow] using hkm
        · exact h e (List.mem_cons_of_mem _ he)
      · simp only [bump, if_neg hk, List.mem_cons] at he
        rcases he with rfl | he
        · exact h (k, m) (List.mem_cons_self _ _)
        · exact ih (fun e' he' => h e' (List.mem_cons_of_mem _ he')) e he

theorem zone_coherent_fold (rows : List GeographicWithDerived) :
    ∀ acc, (∀ e ∈ acc, e.1 = e.2.zone) →
      ∀ e ∈ rows.foldl (fun a r => bump r a) acc, e.1 = e.2.zone := by
  induction rows with
  | nil => intro acc h; exact h
  | cons r t ih =>
      intro acc h
      rw [List.foldl_cons]
      exact ih (bump r acc) (zone_coherent_bump r acc h)

theorem n_pos_bump (r : GeographicWithDerived) (acc : List (String × GeoAcc))
    (h : ∀ e ∈ acc, 1 ≤ e.2.n) : ∀ e ∈ bump r acc, 1 ≤ e.2.n := by
  induction acc with
  | nil =>
      intro e he
      simp only [bump, List.mem_singleton] at he
      rw [he]
      simp [addRow, emptyAcc]
  | cons a t ih =>
      obtain ⟨k, m⟩ := a
      intro e he
      by_cases hk : k = r.zone
      · simp only [bump, if_pos hk, List.mem_cons] at he
        rcases he with rfl | he
        · simp [addRow]
        · exact h e (List.mem_cons_of_mem _ he)
      · simp only [bump, if_neg hk, List.mem_cons] at he
        rcases he with rfl | he
        · exact h (k, m) (List.mem_cons_self _ _)
        · exact ih (fun e' he' => h e' (List.mem_cons_of_mem _ he')) e he

theorem n_pos_fold (rows : List GeographicWithDerived) :
    ∀ acc, (∀ e ∈ acc, 1 ≤ e.2.n) →
      ∀ e ∈ rows.foldl (fun a r => bump r a) acc, 1 ≤ e.2.n := by
  induction rows with
  | nil => intro acc h; exact h
  | cons r t ih =>
      intro acc h
      rw [List.foldl_cons]
      exact ih (bump r acc) (n_pos_bump r acc h)

theorem mem_entry (acc : List (String × GeoAcc)) (hnd : (accKeys acc).Nodup) :
    ∀ e ∈ acc, entry e.1 acc = some e.2 := by
  induction acc with
  | nil => intro e he; cases he
  | cons a t ih =>
      intro e he
      rcases List.mem_cons.mp he with rfl | he
      · simp [entry]
      · have hne : ¬ a.1 = e.1 := by
          intro hc
          have h1 : a.1 ∉ accKeys t := by
            have := hnd
            simp only [accKeys, List.map_cons, List.nodup_cons] at this
            exact this.1
          have h2 : e.1 ∈ accKeys t := List.mem_map.mpr ⟨e, he, rfl⟩
          rw [hc] at h1
          exact h1 h2
        simp only [entry, if_neg hne]
        exact ih (by
          have := hnd
          simp only [accKeys, List.map_cons, List.nodup_cons] at this
          simpa [accKeys] using this.2) e he

end Geographic

namespace JSNum

theorem isFinite_iff (x : JSNum) : x.isFinite = true ↔ ∃ q : ℚ, x = fin q := by
  cases x <;> simp [isFinite]

end JSNum

namespace Geographic

theorem foldl_add_fin (f : GeographicWithDerived → JSNum) (l : List GeographicWithDerived)
    (hf : ∀ r ∈ l, (f r).isFinite = true) :
    ∀ c : ℚ, l.foldl (fun a r => JSNum.add a (f r)) (JSNum.fin c)
      = JSNum.fin (c + (l.map (fun r => (f r).toQ)).sum) := by
  induction l with
  | nil => intro c; simp
  | cons r t ih =>
      intro c
      obtain ⟨q, hq⟩ := (JSNum.isFinite_iff (f r)).mp (hf r (List.mem_cons_self _ _))
      rw [List.foldl_cons, hq, JSNum.fin_add_fin,
        ih (fun r' hr' => hf r' (List.mem_cons_of_mem _ hr'))]
      simp [hq, JSNum.toQ]
      ring

end Geographic

namespace Geographic

theorem fold_entry_facts (rows' : List GeographicWithDerived) (e : String × GeoAcc)
    (he : e ∈ rows'.foldl (fun a r => bump r a) []) :
    e.2.n = (rows'.filter (fun r => decide (r.zone = e.2.zone))).length
    ∧ e.2.totalErosionSum = (rows'.filter (fun r => decide (r.zone = e.2.zone))).foldl
        (fun a r => JSNum.add a r.erosionSum) (JSNum.fin 0)
    ∧ e.2.sumHazard = (rows'.filter (fun r => decide (r.zone = e.2.zone))).foldl
        (fun a r => JSNum.add a r.hazardScore) (JSNum.fin 0)
    ∧ 1 ≤ e.2.n := by
  have hnd : (accKeys (rows'.foldl (fun a r => bump r a) [])).Nodup :=
    accKeys_nodup_fold rows' [] (by simp [accKeys])
  have hz : e.1 = e.2.zone :=
    zone_coherent_fold rows' [] (by intro e' he'; cases he') e he
  have hentry : entry e.2.zone (rows'.foldl (fun a r => bump r a) []) = some e.2 := by
    rw [← hz]
    exact mem_entry _ hnd e he
  have h0 : entry e.2.zone ([] : List (String × GeoAcc)) = none := rfl
  have hef := entry_fold rows' e.2.zone []
  rw [h0] at hef
  have hfold : rows'.foldl (entryStep e.2.zone) none = some e.2 := hef.symm.trans hentry
  obtain ⟨hc, herr, hh⟩ := entryFold_measures e.2.zone rows' none
  rw [hfold] at hc herr hh
  simp only [oCount, oErosion, oHazard] at hc herr hh
  refine ⟨by omega, herr, hh, ?_⟩
  exact n_pos_fold rows' [] (by intro e' he'; cases he') e he

end Geographic

/-- C6: `aggregateByZone` conserves records: the `sites` fields sum to the
number of input rows, each zone's `sites` equals the number of its member
records, and each zone's `totalErosionSum` equals the exact sum of the
members' `erosionSum` values (whenever they are finite numbers). -/
theorem aggregateByZone_conservation (rows : List Geographic.GeoInput) :
    (((Geographic.aggregateByZone rows).map (fun z => z.sites)).sum = rows.length)
    ∧ (∀ z ∈ Geographic.aggregateByZone rows,
        z.sites = ((rows.map Geographic.normalize).filter
            (fun r => decide (r.zone = z.zone))).length
        ∧ ((∀ r ∈ (rows.map Geographic.normalize).filter
              (fun r => decide (r.zone = z.zone)), r.erosionSum.isFinite = true) →
            z.totalErosionSum = JSNum.fin
              ((((rows.map Geographic.normalize).filter
                  (fun r => decide (r.zone = z.zone))).map
                (fun r => r.erosionSum.toQ)).sum))) := by
  constructor
  · unfold Geographic.aggregateByZone
    rw [List.map_map]
    have h1 : ((fun z => Geographic.ZoneAggregate.sites z)
        ∘ (fun e : String × Geographic.GeoAcc => Geographic.finalizeAcc e.2))
        = fun e : String × Geographic.GeoAcc => e.2.n := rfl
    rw [h1]
    have h2 := Geographic.sumSites_fold (rows.map Geographic.normalize) []
    simp only [Geographic.sumSites, List.map_nil, List.sum_nil, List.length_map] at h2
    simpa [Geographic.sumSites] using h2
  · intro z hz
    unfold Geographic.aggregateByZone at hz
    obtain ⟨e, he, rfl⟩ := List.mem_map.mp hz
    obtain ⟨hn, herr, _, _⟩ := Geographic.fold_entry_facts (rows.map Geographic.normalize) e he
    refine ⟨hn, fun hfin => ?_⟩
    have := Geographic.foldl_add_fin (fun r => r.erosionSum)
      ((rows.map Geographic.normalize).filter
        (fun r => decide (r.zone = (Geographic.finalizeAcc e.2).zone))) hfin 0
    rw [zero_add] at this
    exact herr.trans this

/-- Witness for `aggregateByZone_conservation` at a one-row input. -/
theorem aggregateByZone_conservation_witness :
    (Geographic.finalizeAcc (Geographic.addRow (Geographic.emptyAcc "ZW" "DW")
        (Geographic.withDerived (Geographic.rec 1 0 0 "ZW" "DW" 5 0 0 0 0 0)))).totalErosionSum
      = JSNum.fin
          (List.sum
            (List.map (fun r => JSNum.toQ r.erosionSum)
              (List.filter
                (fun r => decide (r.zone = (Geographic.finalizeAcc (Geographic.addRow
                  (Geographic.emptyAcc "ZW" "DW") (Geographic.withDerived
                    (Geographic.rec 1 0 0 "ZW" "DW" 5 0 0 0 0 0)))).zone))
                (List.map Geographic.normalize
                  [(Sum.inl (Geographic.rec 1 0 0 "ZW" "DW" 5 0 0 0 0 0)
                    : Geographic.GeoInput)])))) :=
  ((aggregateByZone_conservation
      [(Sum.inl (Geographic.rec 1 0 0 "ZW" "DW" 5 0 0 0 0 0) : Geographic.GeoInput)]).2
    (Geographic.finalizeAcc (Geographic.addRow (Geographic.emptyAcc "ZW" "DW")
      (Geographic.withDerived (Geographic.rec 1 0 0 "ZW" "DW" 5 0 0 0 0 0))))
    (by decide!)).2 (by decide!)

namespace Geographic

/-- Two already-enriched rows of one zone whose hazard scores average to a
category different from every member's category (20 → bajo, 80 → alto,
average 50 → medio). -/
def demoZoneRows : List GeoInput :=
  [ Sum.inr
      { id := "DEMO-A", lat := 0, lng := 0, zone := "ZDemo", department := "D"
        erosionSum := JSNum.fin 0, erosionMean := JSNum.fin 0, erosionStd := JSNum.fin 0
        sedimentSum := JSNum.fin 0, sedimentMean := JSNum.fin 0, sedimentStd := JSNum.fin 0
        erosionMagnitude := JSNum.fin 0, sedimentMagnitude := JSNum.fin 0
        netBalance := JSNum.fin 0, processDominance := Dominance.mixto
        variabilityIndex := JSNum.fin 0, hazardScore := JSNum.fin 20
        riskCategory := Cat.bajo }
  , Sum.inr
      { id := "DEMO-B", lat := 0, lng := 0, zone := "ZDemo", department := "D"
        erosionSum := JSNum.fin 0, erosionMean := JSNum.fin 0, erosionStd := JSNum.fin 0
        sedimentSum := JSNum.fin 0, sedimentMean := JSNum.fin 0, sedimentStd := JSNum.fin 0
        erosionMagnitude := JSNum.fin 0, sedimentMagnitude := JSNum.fin 0
        netBalance := JSNum.fin 0, processDominance := Dominance.mixto
        variabilityIndex := JSNum.fin 0, hazardScore := JSNum.fin 80
        riskCategory := Cat.alto } ]

end Geographic

/-- C7: each zone aggregate's `avgHazardScore` is the arithmetic mean of
its members' hazard scores (whenever they are finite), its `riskCategory`
is the breakpoint category of that averaged score, and — as witnessed by a
concrete two-row zone — the zone's category need not match any member's
category. -/
theorem aggregateByZone_avg_category (rows : List Geographic.GeoInput) :
    (∀ z ∈ Geographic.aggregateByZone rows,
      ((∀ r ∈ (rows.map Geographic.normalize).filter
            (fun r => decide (r.zone = z.zone)), r.hazardScore.isFinite = true) →
        z.avgHazardScore = JSNum.fin
          ((List.sum (((rows.map Geographic.normalize).filter
              (fun r => decide (r.zone = z.zone))).map (fun r => r.hazardScore.toQ)))
            / ((((rows.map Geographic.normalize).filter
                (fun r => decide (r.zone = z.zone))).length : ℚ))))
      ∧ z.riskCategory = Geographic.scoreToCategory z.avgHazardScore)
    ∧ (∃ za ∈ Geographic.aggregateByZone Geographic.demoZoneRows,
        ∀ r ∈ Geographic.demoZoneRows.map Geographic.normalize,
          r.riskCategory ≠ za.riskCategory) := by
  constructor
  · intro z hz
    unfold Geographic.aggregateByZone at hz
    obtain ⟨e, he, rfl⟩ := List.mem_map.mp hz
    obtain ⟨hn, _, hhaz, hpos⟩ := Geographic.fold_entry_facts (rows.map Geographic.normalize) e he
    constructor
    · intro hfin
      have hsum := Geographic.foldl_add_fin (fun r => r.hazardScore)
        ((rows.map Geographic.normalize).filter
          (fun r => decide (r.zone = (Geographic.finalizeAcc e.2).zone))) hfin 0
      rw [zero_add] at hsum
      have hS : e.2.sumHazard = JSNum.fin
          (List.sum (((rows.map Geographic.normalize).filter
            (fun r => decide (r.zone = (Geographic.finalizeAcc e.2).zone))).map
              (fun r => r.hazardScore.toQ))) := hhaz.trans hsum
      have hne : ((e.2.n : ℚ)) ≠ 0 := by
        have : (0 : ℚ) < (e.2.n : ℚ) := by exact_mod_cast hpos
        exact ne_of_gt this
      show JSNum.div e.2.sumHazard (JSNum.fin e.2.n) = _
      rw [hS]
      simp only [JSNum.div]
      rw [if_neg hne, hn]
      rfl
    · rfl
  · decide!

/-- Witness for `aggregateByZone_avg_category`: instantiation at the
two-row demo zone, with the finiteness hypothesis discharged. -/
theorem aggregateByZone_avg_category_witness :
    (Geographic.finalizeAcc (Geographic.addRow (Geographic.addRow
        (Geographic.emptyAcc "ZDemo" "D") (Geographic.normalize (Geographic.demoZoneRows.get ⟨0, by decide⟩)))
        (Geographic.normalize (Geographic.demoZoneRows.get ⟨1, by decide⟩)))).avgHazardScore
      = JSNum.fin
          ((List.sum (((Geographic.demoZoneRows.map Geographic.normalize).filter
              (fun r => decide (r.zone
                = (Geographic.finalizeAcc (Geographic.addRow (Geographic.addRow
                    (Geographic.emptyAcc "ZDemo" "D")
                    (Geographic.normalize (Geographic.demoZoneRows.get ⟨0, by decide⟩)))
                    (Geographic.normalize (Geographic.demoZoneRows.get ⟨1, by decide⟩)))).zone))).map
            (fun r => r.hazardScore.toQ)))
            / ((((Geographic.demoZoneRows.map Geographic.normalize).filter
                (fun r => decide (r.zone
                  = (Geographic.finalizeAcc (Geographic.addRow (Geographic.addRow
                      (Geographic.emptyAcc "ZDemo" "D")
                      (Geographic.normalize (Geographic.demoZoneRows.get ⟨0, by decide⟩)))
                      (Geographic.normalize (Geographic.demoZoneRows.get ⟨1, by decide⟩)))).zone))).length : ℚ))) :=
  (((aggregateByZone_avg_category Geographic.demoZoneRows).1
      (Geographic.finalizeAcc (Geographic.addRow (Geographic.addRow
        (Geographic.emptyAcc "ZDemo" "D")
        (Geographic.normalize (Geographic.demoZoneRows.get ⟨0, by decide⟩)))
        (Geographic.normalize (Geographic.demoZoneRows.get ⟨1, by decide⟩))))
      (by decide!)).1 (by decide!))

/-! ## Claim: join completeness on the bundled datasets -/

theorem listAny_congr {α : Type} {l : List α} {p q : α → Bool}
    (h : ∀ a ∈ l, p a = q a) : l.any p = l.any q := by
  induction l with
  | nil => rfl
  | cons a t ih =>
      simp only [List.any_cons]
      rw [h a (List.mem_cons_self _ _), ih (fun a' ha' => h a' (List.mem_cons_of_mem _ ha'))]

/-- C1: over the two bundled datasets (and any distance oracle), the join
emits `count(socioeconomic) + count(unmatched geographic)` points, every
socioeconomic record appears in exactly one point, and every geographic
record appears in exactly one point (attached or geo-only) — no duplicates,
no drops. -/
theorem joinPoints_output_complete (dist : Unified.Dist) :
    ((Unified.unifiedPointsD dist).length
       = Socioeconomic.socioeconomic.length
         + ((Geographic.geographic.filter (fun g =>
             !(Socioeconomic.socioeconomic.any (fun s =>
                 decide (Unified.matchGeo dist Geographic.geographic s = some g))))).length))
    ∧ (Socioeconomic.socioeconomic.all (fun s =>
        decide ((Unified.unifiedPointsD dist).countP
          (fun p => decide (p.socioRec = some s)) = 1)) = true)
    ∧ (Geographic.geographic.all (fun g =>
        decide ((Unified.unifiedPointsD dist).countP
          (fun p => decide (p.geoRec = some g)) = 1)) = true) := by
  have hpts : Unified.unifiedPointsD dist = Unified.unifiedPointsD Unified.distZero := by
    unfold Unified.unifiedPointsD
    rw [Unified.joinPoints_dist_irrel]
  have hfil : Geographic.geographic.filter (fun g =>
        !(Socioeconomic.socioeconomic.any (fun s =>
            decide (Unified.matchGeo dist Geographic.geographic s = some g))))
      = Geographic.geographic.filter (fun g =>
        !(Socioeconomic.socioeconomic.any (fun s =>
            decide (Unified.matchGeo Unified.distZero Geographic.geographic s = some g)))) := by
    apply List.filter_congr
    intro g _
    have := listAny_congr (l := Socioeconomic.socioeconomic)
      (p := fun s => decide (Unified.matchGeo dist Geographic.geographic s = some g))
      (q := fun s => decide (Unified.matchGeo Unified.distZero Geographic.geographic s = some g))
      (fun s hs => by
        simp only []
        rw [Unified.matchGeo_dist_irrel dist s hs])
    rw [this]
  rw [hpts, hfil]
  refine ⟨by decide!, by decide!, by decide!⟩

/-! ## Claim: the housing-loss fixture and the concrete thresholds -/

/-- Counterexample to C8 as stated: the dataset's housing-loss column is
not the list `[200,200,200,200,300,300,600,600,600,600,600,0,0,0,0,0]`
claimed by the spec — not even as a multiset (the dataset contains a single
`0`, the claimed fixture five). -/
theorem fixture_values_mismatch :
    Socioeconomic.socioeconomicRaw.map (fun r => r.estimatedLossHousing)
      ≠ ([200, 200, 200, 200, 300, 300, 600, 600, 600, 600, 600, 0, 0, 0, 0, 0]
          : List ℚ).map JSNum.fin
    ∧ (Socioeconomic.socioeconomicRaw.map (fun r => r.estimatedLossHousing)).count
        (JSNum.fin 0) = 1
    ∧ (([200, 200, 200, 200, 300, 300, 600, 600, 600, 600, 600, 0, 0, 0, 0, 0]
          : List ℚ).map JSNum.fin).count (JSNum.fin 0) = 5 :=
  ⟨by decide!, by decide!, by decide!⟩

/-- C8 amended: the dataset's actual 16 housing-loss values sort to
`[0, 200×9, 300×3, 600×3]`; the interpolation formula yields the
deterministic thresholds `tLow = 200` and `tMid = 290` (also the memoised
thresholds of the join, for every distance oracle), and a record with loss
`0` classifies as `bajo`. -/
theorem lossThresholds_concrete :
    Unified.sortedFinite (Unified.lossesOf Socioeconomic.socioeconomic)
      = [0, 200, 200, 200, 200, 200, 200, 200, 200, 200, 300, 300, 300, 600, 600, 600]
    ∧ Unified.computeLossThresholds (Unified.lossesOf Socioeconomic.socioeconomic) = (200, 290)
    ∧ (∀ dist : Unified.Dist, Unified.lossThresholdsD dist = (200, 290))
    ∧ Unified.riskCategoryFromLoss (JSNum.fin 0) 200 290 = Cat.bajo := by
  refine ⟨by decide!, by decide!, fun dist => ?_, by decide!⟩
  unfold Unified.lossThresholdsD
  rw [Unified.joinPoints_dist_irrel]
  decide!
